import Mathlib

/-!
Verification of the session-to-entity reconciliation, playback-state
normalisation and EPG refresh logic of the emby_custom integration
(`media_player.py`).  The Python code is shallowly embedded: JSON
primitive values become `JPrim`, the loosely typed session payloads
become optional-field records, the long-lived `EmbySessionEntity`
becomes the `Entity` record, and every mutating method becomes a pure
state-transforming function.  Python truthiness (`or` chains,
`bool(...)` coercions, `if x:` tests) is modelled explicitly because the
source relies on it.
-/

/-- A JSON primitive value as Python sees it after `json` decoding:
`None`, a bool, a number, or a string.  Used for fields whose Python
handling depends on truthiness or on `str(...)` conversion. -/
inductive JPrim where
  | null
  | jbool (b : Bool)
  | jnum (q : ℚ)
  | jstr (s : String)
deriving DecidableEq

/-- Python truthiness of a primitive value (`bool(x)`). -/
def JPrim.truthy : JPrim → Bool
  | .null => false
  | .jbool b => b
  | .jnum q => !(q == 0)
  | .jstr s => !(s == "")

/-- Python `str(x)` on a primitive value (numeral rendering is irrelevant
to every claim; only identity on strings matters). -/
def JPrim.pyStr : JPrim → String
  | .null => "None"
  | .jbool true => "True"
  | .jbool false => "False"
  | .jnum q => toString q
  | .jstr s => s

/-- Python `a or b` on primitive values: `a` when truthy, else `b`. -/
def pyOr (a b : JPrim) : JPrim := if a.truthy then a else b

/-- Python truthiness of an `Optional[str]`: `None` and `""` are falsy. -/
def optTruthy : Option String → Bool
  | none => false
  | some s => !(s == "")

/-- Python `a or b` on `Optional[str]` operands. -/
def pyOrS (a b : Option String) : Option String := if optTruthy a then a else b

/-- A nested program-reference object (`NowPlayingProgram` on the session,
`CurrentProgram` on the now-playing item); only its `Id` is read.
`none` at the use sites stands for an absent, null or non-dict value
(the source guards every access with an `isinstance(..., dict)` check). -/
structure ProgRef where
  Id : Option String := none
deriving DecidableEq

/-- The `NowPlayingItem` payload of a session, restricted to the fields
the media-player module reads. -/
structure NPItem where
  Id : Option String := none
  ItemType : Option String := none   -- JSON key "Type"
  Name : Option String := none
  SeriesName : Option String := none
  AlbumArtist : Option String := none
  Artist : Option String := none
  ParentIndexNumber : Option Int := none
  IndexNumber : Option Int := none
  RunTimeTicks : JPrim := .null
  ChannelId : Option String := none
  ProgramId : Option String := none
  CurrentProgram : Option ProgRef := none
  ChannelNumber : JPrim := .null
  Number : JPrim := .null
deriving DecidableEq

/-- The `PlayState` payload of a session. -/
structure PlayState where
  IsPaused : Option Bool := none
  IsPlaying : Option Bool := none
  PlaybackStatus : Option String := none
  PositionTicks : JPrim := .null
deriving DecidableEq

/-- One raw session object from the coordinator's list.
`NowPlayingItem = none` stands for an absent, null or empty payload:
the source collapses those with `session.get("NowPlayingItem") or`
the empty dict, after which every field access yields `None` —
exactly the behaviour of binding through `none` here.  The same
collapse applies to `PlayState`. -/
structure Session where
  Id : Option String := none
  SessionId : Option String := none
  DeviceName : Option String := none
  Client : Option String := none
  UserName : Option String := none
  Application : Option String := none
  NowPlayingItem : Option NPItem := none
  PlayState : Option PlayState := none
  NowPlayingProgram : Option ProgRef := none
  NowPlayingProgramId : Option String := none
deriving DecidableEq

/-- Source `_ticks_to_seconds`: Emby ticks → seconds at 10,000,000 ticks per
second.  Python's `isinstance(ticks, (int, float))` admits numbers and —
because `bool` is a subtype of `int` — booleans (valued 0/1); `None` and
strings yield `None`. -/
def ticks_to_seconds : JPrim → Option ℚ
  | .jnum q => some (q / 10000000)
  | .jbool b => some ((if b then (1 : ℚ) else 0) / 10000000)
  | _ => none

/-- Python's `str.lower()` on the ASCII item-type strings (defined by
structural recursion over the characters so that it evaluates inside the
kernel). -/
def pyLower (s : String) : String := String.mk (s.data.map Char.toLower)

/-- Source `_content_type_from_item_type`: normalise the raw item-type string.
`if not item_type` makes both an absent and an empty type yield `None`. -/
def content_type_from_item_type : Option String → Option String
  | none => none
  | some t =>
    if t == "" then none
    else
      let it := pyLower t
      if it == "episode" then some "tvshow"
      else if it == "movie" then some "movie"
      else if it == "audio" || it == "audiofile" || it == "music" || it == "musicvideo" then
        some "music"
      else if it == "livetvchannel" || it == "tvchannel" || it == "program" then
        some "tvchannel"
      else some it

/-- Derived playback state (`MediaPlayerState` restricted to the values
`_apply_session` produces). -/
inductive PState where
  | idle
  | playing
  | paused
deriving DecidableEq

/-- A program snapshot returned by the EPG fetch chain, restricted to the
fields `_async_refresh_epg` reads.  `none` at the use sites stands for a
null, empty or non-dict result (the source tests `if epg and
isinstance(epg, dict)`). -/
structure Epg where
  Id : Option String := none
  ChannelId : JPrim := .null
  ChannelNumber : JPrim := .null
  Number : JPrim := .null
deriving DecidableEq

/-- A channel-detail object returned by `async_get_channel`. -/
structure ChannelInfo where
  Number : JPrim := .null
  ChannelNumber : JPrim := .null
deriving DecidableEq

/-- The long-lived `EmbySessionEntity` state: the cached snapshot fields,
the availability flag, the live-TV identity, the program snapshot, and
the EPG throttle timestamp.  `hass` records whether the entity has been
handed to the host (before `async_add_entities` the Python `self.hass`
is `None`, so no task can be spawned).  Wall-clock instants are
rationals (seconds). -/
structure Entity where
  session_id : String
  hass : Bool := false
  available : Bool := true
  nameBase : Option String := none      -- source: _name_prefix
  user : Option String := none
  app_name : Option String := none
  media_title : Option String := none
  artist : Option String := none
  series : Option String := none
  state : PState := .idle
  duration_s : Option ℚ := none
  position_s : Option ℚ := none
  position_updated_at : Option ℚ := none
  content_id : Option String := none
  content_type : Option String := none
  season : Option Int := none
  episode : Option Int := none
  entity_picture : Option String := none
  channel_id : Option String := none
  channel_number : Option String := none
  program_id : Option String := none
  epg : Option Epg := none
  epg_source : Option String := none
  last_epg_fetch : Option ℚ := none
deriving DecidableEq

/-- Source `EmbyClient.item_primary_image_url` (pure URL construction; the
server base and api key do not matter to any claim). -/
def item_primary_image_url (item_id : String) : String :=
  "/Items/" ++ item_id ++ "/Images/Primary"

/-- Source `session.get("DeviceName") or session.get("Client") or "Emby Client"`. -/
def nameBaseOf (s : Session) : Option String :=
  pyOrS (pyOrS s.DeviceName s.Client) (some "Emby Client")

/-- Source `session.get("Client") or session.get("Application") or "Emby"`. -/
def appNameOf (s : Session) : Option String :=
  pyOrS (pyOrS s.Client s.Application) (some "Emby")

/-- Source `str(np.get("Id")) if np.get("Id") is not None else None` (ids are
strings, so `str` is the identity). -/
def contentIdOf (s : Session) : Option String :=
  s.NowPlayingItem.bind NPItem.Id

/-- Source `_content_type_from_item_type(np.get("Type"))`. -/
def contentTypeOf (s : Session) : Option String :=
  content_type_from_item_type (s.NowPlayingItem.bind NPItem.ItemType)

/-- Source `_ticks_to_seconds(np.get("RunTimeTicks"))`. -/
def durationOf (s : Session) : Option ℚ :=
  ticks_to_seconds ((s.NowPlayingItem.map NPItem.RunTimeTicks).getD .null)

/-- Source `_ticks_to_seconds(ps.get("PositionTicks"))`. -/
def positionOf (s : Session) : Option ℚ :=
  ticks_to_seconds ((s.PlayState.map PlayState.PositionTicks).getD .null)

/-- The state derivation of `_apply_session`:
`is_paused` wins, else the playing inference, else idle. -/
def stateOf (s : Session) : PState :=
  let ps := s.PlayState
  let is_paused := (ps.bind PlayState.IsPaused).getD false
  let is_playing_flag :=
    ((ps.bind PlayState.IsPlaying).getD false)
      || ((ps.bind PlayState.PlaybackStatus) == some "Playing")
  let has_now_playing := s.NowPlayingItem.isSome
  if is_paused then PState.paused
  else if is_playing_flag || (has_now_playing && !is_paused) then PState.playing
  else PState.idle

/-- Source `self._client.item_primary_image_url(self._content_id) if
self._content_id else None` (truthiness test on the id). -/
def entityPictureOf (s : Session) : Option String :=
  if optTruthy (contentIdOf s) then
    some (item_primary_image_url ((contentIdOf s).getD ""))
  else none

/-- Live-TV channel id: `str(np.get("ChannelId"))` when present, else the
content id. -/
def channelIdOf (s : Session) (item : NPItem) : Option String :=
  match item.ChannelId with
  | some c => some c
  | none => contentIdOf s

/-- The four-source priority chain for the live-TV program id, exactly as
the source chains them with Python `or` (left associated, so an operand
whose string form is empty falls through). -/
def progIdChain (s : Session) (item : NPItem) : Option String :=
  pyOrS
    (pyOrS
      (pyOrS item.ProgramId (s.NowPlayingProgram.bind ProgRef.Id))
      (item.CurrentProgram.bind ProgRef.Id))
    s.NowPlayingProgramId

/-- The `channel_id` field `_apply_session` derives from one session
payload: the live-TV channel id for `tvchannel` content, `None`
otherwise (the field is preset to `None` and only the live-TV branch
overwrites it). -/
def channelIdFieldOf (s : Session) : Option String :=
  match s.NowPlayingItem with
  | some item =>
    if contentTypeOf s = some "tvchannel" then channelIdOf s item else none
  | none => none

/-- The `program_id` field `_apply_session` derives from one session
payload: the program-id priority chain for `tvchannel` content, `None`
otherwise. -/
def programIdFieldOf (s : Session) : Option String :=
  match s.NowPlayingItem with
  | some item =>
    if contentTypeOf s = some "tvchannel" then progIdChain s item else none
  | none => none

/-- The unconditional field updates at the top of `_apply_session`:
identity strings, media identity, timing, derived state, and the
preliminary `program_id = None`, `channel_id = None` assignments. -/
def applyCommon (e : Entity) (s : Session) (now : ℚ) : Entity :=
  { e with
    nameBase := nameBaseOf s,
    user := s.UserName,
    app_name := appNameOf s,
    content_id := contentIdOf s,
    content_type := contentTypeOf s,
    media_title := s.NowPlayingItem.bind NPItem.Name,
    series := s.NowPlayingItem.bind NPItem.SeriesName,
    artist := pyOrS (s.NowPlayingItem.bind NPItem.AlbumArtist)
      (s.NowPlayingItem.bind NPItem.Artist),
    season := s.NowPlayingItem.bind NPItem.ParentIndexNumber,
    episode := s.NowPlayingItem.bind NPItem.IndexNumber,
    entity_picture := entityPictureOf s,
    duration_s := durationOf s,
    position_s := positionOf s,
    position_updated_at := if (positionOf s).isSome then some now else none,
    state := stateOf s,
    program_id := none,
    channel_id := none }

/-- The `else` branch of the live-TV section of `_apply_session`: clear
every live-TV field. -/
def clearLiveTv (e : Entity) : Entity :=
  { e with channel_id := none, program_id := none, epg := none,
           epg_source := none, channel_number := none }

/-- The field updates of `_apply_session` (everything except the EPG
scheduling side effect, split out into `applySession` below).  The final
match mirrors the live-TV / non-live branch: for `tvchannel` content the
channel and program identity is derived and a present channel number
overwrites the cached one, otherwise all live-TV fields are cleared. -/
def applyBase (e : Entity) (s : Session) (now : ℚ) : Entity :=
  match s.NowPlayingItem with
  | some item =>
    if contentTypeOf s = some "tvchannel" then
      { applyCommon e s now with
        channel_id := channelIdOf s item,
        program_id := progIdChain s item,
        channel_number :=
          if pyOr item.ChannelNumber item.Number ≠ JPrim.null then
            some (JPrim.pyStr (pyOr item.ChannelNumber item.Number))
          else e.channel_number }
    else clearLiveTv (applyCommon e s now)
  | none => clearLiveTv (applyCommon e s now)

/-- Source `_maybe_schedule_epg_refresh`: drop the trigger when the last fetch
is less than 20 seconds old; otherwise record `now` as the last fetch and
spawn the task when the entity is attached to the host (`if self.hass`).
The returned flag is whether a fetch task was started. -/
def maybeScheduleEpg (e : Entity) (now : ℚ) : Entity × Bool :=
  match e.last_epg_fetch with
  | some t =>
    if now - t < 20 then (e, false)
    else ({ e with last_epg_fetch := some now }, e.hass)
  | none => ({ e with last_epg_fetch := some now }, e.hass)

/-- Source `_apply_session`: the field updates, then — only for live-TV content
with a truthy channel or program id — the throttled EPG refresh
scheduling.  The flag reports whether a fetch task was started. -/
def applySession (e : Entity) (s : Session) (now : ℚ) : Entity × Bool :=
  let e1 := applyBase e s now
  if e1.content_type = some "tvchannel"
      ∧ (optTruthy e1.channel_id || optTruthy e1.program_id) = true then
    maybeScheduleEpg e1 now
  else (e1, false)

/-- Source `mark_gone`: flip availability off, touch nothing else. -/
def markGone (e : Entity) : Entity := { e with available := false }

/-- The client capability consumed by `_async_refresh_epg`; each call may
raise (`Except.error`). -/
structure EpgClient where
  programForSession : Option String → Option String → Except Unit (Option Epg)
  currentProgram : String → Except Unit (Option Epg)
  getChannel : String → Except Unit (Option ChannelInfo)

/-- Source `self._epg = epg` plus the `source` tagging of `_async_refresh_epg`:
a dict result is tagged `program_id` when `self._program_id` is truthy
and the returned `Id` equals it, else `channel_search`; a missing result
is tagged `none`. -/
def tagEpgResult (e : Entity) (epg : Option Epg) : Entity :=
  match epg with
  | some g =>
    { e with
      epg := some g
      epg_source := some (if optTruthy e.program_id && (g.Id == e.program_id)
                          then "program_id" else "channel_search") }
  | none => { e with epg := none, epg_source := some "none" }

/-- Source `if epg.get("ChannelId"): self._channel_id = str(...)`. -/
def adoptChannelId (e : Entity) (g : Epg) : Entity :=
  if JPrim.truthy g.ChannelId then
    { e with channel_id := some (JPrim.pyStr g.ChannelId) }
  else e

/-- Source `cn = epg.get("ChannelNumber") or epg.get("Number"); if cn is not
None: self._channel_number = str(cn)`. -/
def adoptChannelNumber (e : Entity) (g : Epg) : Entity :=
  if pyOr g.ChannelNumber g.Number ≠ JPrim.null then
    { e with channel_number := some (JPrim.pyStr (pyOr g.ChannelNumber g.Number)) }
  else e

/-- Channel-number adoption from the channel-detail lookup result. -/
def adoptFromChannel (e : Entity) (chOpt : Option ChannelInfo) : Entity :=
  match chOpt with
  | some ch =>
    if pyOr ch.Number ch.ChannelNumber ≠ JPrim.null then
      { e with channel_number := some (JPrim.pyStr (pyOr ch.Number ch.ChannelNumber)) }
    else e
  | none => e

/-- The `try` body of `_async_refresh_epg`: primary program lookup,
fall back to the current program of the channel when the result is falsy
and a channel id is known, adopt channel id/number from the program
object, resolve a still-missing channel number through a channel-detail
lookup, then store and tag the result.  An `error` value carries the
entity as already mutated before the exception, exactly as the Python
`except` clause sees `self`. -/
def refreshEpgBody (c : EpgClient) (e : Entity) : Except Entity Entity :=
  match c.programForSession e.channel_id e.program_id with
  | .error _ => .error e
  | .ok epg0 =>
    match (if epg0.isNone && optTruthy e.channel_id then
             c.currentProgram (e.channel_id.getD "")
           else .ok epg0) with
    | .error _ => .error e
    | .ok epg =>
      match epg with
      | some g =>
        let e2 := adoptChannelNumber (adoptChannelId e g) g
        if e2.channel_number = none ∧ optTruthy e2.channel_id = true then
          match c.getChannel (e2.channel_id.getD "") with
          | .error _ => .error e2
          | .ok chOpt => .ok (tagEpgResult (adoptFromChannel e2 chOpt) (some g))
        else .ok (tagEpgResult e2 (some g))
      | none => .ok (tagEpgResult e none)

/-- Source `_async_refresh_epg`: the body under the task-boundary
`try`/`except`/`finally`.  Any failure is converted into an empty,
`error`-tagged program snapshot; in every case the `finally` clause
re-publishes state when the entity is attached (the returned flag). -/
def refreshEpg (c : EpgClient) (e : Entity) : Entity × Bool :=
  match refreshEpgBody c e with
  | .ok e2 => (e2, e2.hass)
  | .error ep => ({ ep with epg := none, epg_source := some "error" }, ep.hass)

/-- Is an `Except` result an error? -/
def exceptErr {α β : Type} : Except α β → Bool
  | .error _ => true
  | .ok _ => false

/-- Source `sid = s.get("Id") or s.get("SessionId")`, usable only when truthy
(`if not sid: continue`). -/
def Session.usableId (s : Session) : Option String :=
  let sid := pyOrS s.Id s.SessionId
  if optTruthy sid then sid else none

/-- The fresh `EmbySessionEntity.__init__` state before its initial
`_apply_session` call. -/
def blankEntity (sid : String) : Entity := { session_id := sid }

/-- Source `EmbySessionEntity.__init__`: construct the blank entity, then run
the initial `_apply_session` (at which point `self.hass` is still unset,
so the EPG throttle timestamp may be recorded but no task spawns). -/
def initEntity (s : Session) (sid : String) (now : ℚ) : Entity × Bool :=
  applySession (blankEntity sid) s now

/-- First-match association-list lookup, the view of the Python
`entities` dict used by `_sync_entities`. -/
def lookupEnt : List (String × Entity) → String → Option Entity
  | [], _ => none
  | p :: rest, k => if p.1 = k then some p.2 else lookupEnt rest k

/-- In-place value replacement for an existing key (`entities[sid] = e`
keeps insertion order). -/
def updateEnt : List (String × Entity) → String → Entity → List (String × Entity)
  | [], _, _ => []
  | p :: rest, k, v => if p.1 = k then (k, v) :: rest else p :: updateEnt rest k v

/-- The keys of the entity map. -/
def keysOf (m : List (String × Entity)) : List String := m.map Prod.fst

/-- The sessions of a list whose usable id is `k`, in list order. -/
def matching : List Session → String → List Session
  | [], _ => []
  | s :: L, k => if Session.usableId s = some k then s :: matching L k else matching L k

/-- Apply a list of session payloads to an entity in order. -/
def applyFold (e : Entity) (L : List Session) (now : ℚ) : Entity :=
  L.foldl (fun acc s => (applySession acc s now).1) e

/-- The engine's mutable state: the session-id → entity map and the ids
ever handed to the host's `async_add_entities` boundary, in order. -/
structure SyncState where
  entities : List (String × Entity) := []
  registered : List String := []
deriving DecidableEq

/-- The per-session loop of `_sync_entities`: skip entries without a
usable id, create-and-collect entities for new ids, update existing ones
in place, and record every usable id as seen. -/
def syncLoop : ℚ → List Session → List (String × Entity) → List String → List String →
    List (String × Entity) × List String × List String
  | _, [], ents, seen, newIds => (ents, seen, newIds)
  | now, s :: rest, ents, seen, newIds =>
    match Session.usableId s with
    | none => syncLoop now rest ents seen newIds
    | some sid =>
      match lookupEnt ents sid with
      | none =>
        syncLoop now rest (ents ++ [(sid, (initEntity s sid now).1)])
          (seen ++ [sid]) (newIds ++ [sid])
      | some e =>
        syncLoop now rest (updateEnt ents sid (applySession e s now).1)
          (seen ++ [sid]) newIds

/-- Source `async_add_entities` attaches the entity to the host. -/
def setHass (e : Entity) : Entity := { e with hass := true }

/-- Rewrite every value of the entity map through a key-aware function. -/
def mapVals (g : String → Entity → Entity) (m : List (String × Entity)) :
    List (String × Entity) :=
  m.map (fun p => (p.1, g p.1 p.2))

/-- One `_sync_entities` pass: the per-session loop, then `mark_gone`
for every key the pass did not see, then the registration of the newly
created entities (which attaches them to the host).  The second
component is the list of ids handed to the registration boundary by
this pass. -/
def syncEntities (st : SyncState) (sessions : List Session) (now : ℚ) :
    SyncState × List String :=
  let r := syncLoop now sessions st.entities [] []
  let ents2 := mapVals (fun k v => if k ∈ r.2.1 then v else markGone v) r.1
  let ents3 := mapVals (fun k v => if k ∈ r.2.2 then setHass v else v) ents2
  ({ entities := ents3, registered := st.registered ++ r.2.2 }, r.2.2)

/-- The raw id comparison of `_handle_coordinator_update`
(`sid = s.get("Id") or s.get("SessionId"); if sid == self._session_id`). -/
def findSession (sessions : List Session) (sid : String) : Option Session :=
  sessions.find? (fun s => pyOrS s.Id s.SessionId == some sid)

/-- Source `EmbySessionEntity._handle_coordinator_update`: apply the first
session of the list whose id matches (the loop breaks on the first hit)
and become available, or become unavailable when none matches. -/
def handleCoordinatorUpdate (e : Entity) (sessions : List Session) (now : ℚ) : Entity :=
  match findSession sessions e.session_id with
  | some s => { (applySession e s now).1 with available := true }
  | none => { e with available := false }

/-- One full coordinator notification: the platform's `_sync_entities`
listener runs first (it was registered at setup time), then every
attached entity's own `_handle_coordinator_update` listener runs. -/
def coordinatorPoll (st : SyncState) (sessions : List Session) (now : ℚ) :
    SyncState × List String :=
  let p := syncEntities st sessions now
  let ents := mapVals
    (fun _ v => if v.hass then handleCoordinatorUpdate v sessions now else v) p.1.entities
  ({ p.1 with entities := ents }, p.2)

/-- Map well-formedness: unique keys, each id registered at most once,
registered ids are (still) keys, and every entity knows its own key as
its session id. -/
def WFs (st : SyncState) : Prop :=
  (keysOf st.entities).Nodup ∧ st.registered.Nodup ∧
  (∀ r ∈ st.registered, r ∈ keysOf st.entities) ∧
  (∀ p ∈ st.entities, Entity.session_id p.2 = p.1)

/-- The snapshot fields `_apply_session` replaces wholesale from the
incoming session payload, including the live-TV identity fields
`channel_id` and `program_id`, which it recomputes from the session on
every update.  Only `channel_number`, `epg` and `epg_source` can carry
over from the previous state, and only the wall-clock capture instants
are time-dependent; neither group is part of `Core`. -/
structure Core where
  nameBase : Option String
  user : Option String
  app_name : Option String
  media_title : Option String
  artist : Option String
  series : Option String
  state : PState
  duration_s : Option ℚ
  position_s : Option ℚ
  content_id : Option String
  content_type : Option String
  season : Option Int
  episode : Option Int
  entity_picture : Option String
  channel_id : Option String
  program_id : Option String
deriving DecidableEq

/-- The wholesale-replaced part of an entity's snapshot. -/
def Entity.core (e : Entity) : Core :=
  { nameBase := e.nameBase, user := e.user, app_name := e.app_name
    media_title := e.media_title, artist := e.artist, series := e.series
    state := e.state, duration_s := e.duration_s, position_s := e.position_s
    content_id := e.content_id, content_type := e.content_type
    season := e.season, episode := e.episode, entity_picture := e.entity_picture
    channel_id := e.channel_id, program_id := e.program_id }

/-- The snapshot `_apply_session` derives from one session payload. -/
def coreOf (s : Session) : Core :=
  { nameBase := nameBaseOf s, user := s.UserName, app_name := appNameOf s
    media_title := s.NowPlayingItem.bind NPItem.Name
    artist := pyOrS (s.NowPlayingItem.bind NPItem.AlbumArtist)
      (s.NowPlayingItem.bind NPItem.Artist)
    series := s.NowPlayingItem.bind NPItem.SeriesName
    state := stateOf s, duration_s := durationOf s, position_s := positionOf s
    content_id := contentIdOf s, content_type := contentTypeOf s
    season := s.NowPlayingItem.bind NPItem.ParentIndexNumber
    episode := s.NowPlayingItem.bind NPItem.IndexNumber
    entity_picture := entityPictureOf s
    channel_id := channelIdFieldOf s
    program_id := programIdFieldOf s }

/-- The observable state of an entity: identity, availability, the full
snapshot (via `Core`, which includes the live-TV `channel_id` and
`program_id`), and the carried-over live-TV fields `channel_number`,
`epg` and `epg_source`.  The wall-clock capture timestamps
(`position_updated_at`, `last_epg_fetch`) are by construction the
instant of the pass that produced them, and the host-attachment flag is
not an observable, so they are not part of this projection. -/
structure Obs where
  session_id : String
  available : Bool
  core : Core
  channel_number : Option String
  epg : Option Epg
  epg_source : Option String
deriving DecidableEq

/-- Observable projection of an entity. -/
def Entity.obs (e : Entity) : Obs :=
  { session_id := e.session_id, available := e.available, core := e.core
    channel_number := e.channel_number, epg := e.epg, epg_source := e.epg_source }

/-- What one `_apply_session` writes to `channel_number`: `some v` is an
overwrite, `none` keeps the cached value (live TV without a channel
number in the payload). -/
def cnW (s : Session) : Option (Option String) :=
  match s.NowPlayingItem with
  | some item =>
    if contentTypeOf s = some "tvchannel" then
      if pyOr item.ChannelNumber item.Number ≠ JPrim.null then
        some (some (JPrim.pyStr (pyOr item.ChannelNumber item.Number)))
      else none
    else some none
  | none => some none

/-- What one `_apply_session` writes to the `(epg, epg_source)` pair:
live TV keeps the pair, anything else clears it. -/
def epgW (s : Session) : Option (Option Epg × Option String) :=
  match s.NowPlayingItem with
  | some _ => if contentTypeOf s = some "tvchannel" then none else some (none, none)
  | none => some (none, none)

/-- Fold a keep-or-overwrite write function over a session list. -/
def writeFold {α : Type} (w : Session → Option α) (L : List Session) (c : α) : α :=
  L.foldl (fun acc s => (w s).getD acc) c

lemma maybeScheduleEpg_shape (e : Entity) (now : ℚ) :
    ∃ t, (maybeScheduleEpg e now).1 = { e with last_epg_fetch := t } := by
  unfold maybeScheduleEpg
  cases h : e.last_epg_fetch with
  | none => exact ⟨some now, rfl⟩
  | some t =>
    dsimp only
    by_cases h2 : now - t < 20
    · refine ⟨some t, ?_⟩
      rw [if_pos h2]
      show e = { e with last_epg_fetch := some t }
      rw [← h]
    · exact ⟨some now, by rw [if_neg h2]⟩

lemma applySession_shape (e : Entity) (s : Session) (now : ℚ) :
    ∃ t, (applySession e s now).1 = { applyBase e s now with last_epg_fetch := t } := by
  unfold applySession
  by_cases h : (applyBase e s now).content_type = some "tvchannel"
      ∧ (optTruthy (applyBase e s now).channel_id
          || optTruthy (applyBase e s now).program_id) = true
  · rw [if_pos h]
    exact maybeScheduleEpg_shape _ now
  · rw [if_neg h]
    exact ⟨(applyBase e s now).last_epg_fetch, rfl⟩

lemma applyBase_core (e : Entity) (s : Session) (now : ℚ) :
    (applyBase e s now).core = coreOf s := by
  unfold applyBase
  cases hnp : s.NowPlayingItem with
  | none =>
    dsimp only
    have h1 : channelIdFieldOf s = none := by
      unfold channelIdFieldOf
      rw [hnp]
    have h2 : programIdFieldOf s = none := by
      unfold programIdFieldOf
      rw [hnp]
    show { coreOf s with
      channel_id := none
      program_id := none } = coreOf s
    have heta : coreOf s = { coreOf s with
      channel_id := channelIdFieldOf s
      program_id := programIdFieldOf s } := rfl
    conv_rhs => rw [heta]
    rw [h1, h2]
  | some item =>
    dsimp only
    have h1 : channelIdFieldOf s
        = if contentTypeOf s = some "tvchannel" then channelIdOf s item else none := by
      unfold channelIdFieldOf
      rw [hnp]
    have h2 : programIdFieldOf s
        = if contentTypeOf s = some "tvchannel" then progIdChain s item else none := by
      unfold programIdFieldOf
      rw [hnp]
    by_cases h : contentTypeOf s = some "tvchannel"
    · rw [if_pos h] at h1 h2
      rw [if_pos h]
      show { coreOf s with
        channel_id := channelIdOf s item
        program_id := progIdChain s item } = coreOf s
      have heta : coreOf s = { coreOf s with
        channel_id := channelIdFieldOf s
        program_id := programIdFieldOf s } := rfl
      conv_rhs => rw [heta]
      rw [h1, h2]
    · rw [if_neg h] at h1 h2
      rw [if_neg h]
      show { coreOf s with
        channel_id := none
        program_id := none } = coreOf s
      have heta : coreOf s = { coreOf s with
        channel_id := channelIdFieldOf s
        program_id := programIdFieldOf s } := rfl
      conv_rhs => rw [heta]
      rw [h1, h2]

lemma applyBase_session_id (e : Entity) (s : Session) (now : ℚ) :
    (applyBase e s now).session_id = e.session_id := by
  unfold applyBase
  cases s.NowPlayingItem with
  | none => rfl
  | some item =>
    dsimp only
    by_cases h : contentTypeOf s = some "tvchannel"
    · rw [if_pos h]; rfl
    · rw [if_neg h]; rfl

lemma applyBase_available (e : Entity) (s : Session) (now : ℚ) :
    (applyBase e s now).available = e.available := by
  unfold applyBase
  cases s.NowPlayingItem with
  | none => rfl
  | some item =>
    dsimp only
    by_cases h : contentTypeOf s = some "tvchannel"
    · rw [if_pos h]; rfl
    · rw [if_neg h]; rfl

lemma applyBase_hass (e : Entity) (s : Session) (now : ℚ) :
    (applyBase e s now).hass = e.hass := by
  unfold applyBase
  cases s.NowPlayingItem with
  | none => rfl
  | some item =>
    dsimp only
    by_cases h : contentTypeOf s = some "tvchannel"
    · rw [if_pos h]; rfl
    · rw [if_neg h]; rfl

lemma applyBase_cn (e : Entity) (s : Session) (now : ℚ) :
    (applyBase e s now).channel_number = (cnW s).getD e.channel_number := by
  unfold applyBase cnW
  cases s.NowPlayingItem with
  | none => rfl
  | some item =>
    dsimp only
    by_cases h : contentTypeOf s = some "tvchannel"
    · rw [if_pos h, if_pos h]
      by_cases h2 : pyOr item.ChannelNumber item.Number ≠ JPrim.null
      · rw [if_pos h2, if_pos h2]; rfl
      · rw [if_neg h2, if_neg h2]; rfl
    · rw [if_neg h, if_neg h]
      rfl

lemma applyBase_epgPair (e : Entity) (s : Session) (now : ℚ) :
    ((applyBase e s now).epg, (applyBase e s now).epg_source)
      = (epgW s).getD (e.epg, e.epg_source) := by
  unfold applyBase epgW
  cases s.NowPlayingItem with
  | none => rfl
  | some item =>
    dsimp only
    by_cases h : contentTypeOf s = some "tvchannel"
    · rw [if_pos h, if_pos h]
      rfl
    · rw [if_neg h, if_neg h]
      rfl

lemma applySession_core (e : Entity) (s : Session) (now : ℚ) :
    ((applySession e s now).1).core = coreOf s := by
  obtain ⟨t, ht⟩ := applySession_shape e s now
  rw [ht, show ({ applyBase e s now with last_epg_fetch := t } : Entity).core
    = (applyBase e s now).core from rfl, applyBase_core]

lemma applySession_session_id (e : Entity) (s : Session) (now : ℚ) :
    ((applySession e s now).1).session_id = e.session_id := by
  obtain ⟨t, ht⟩ := applySession_shape e s now
  rw [ht]
  exact applyBase_session_id e s now

lemma applySession_available (e : Entity) (s : Session) (now : ℚ) :
    ((applySession e s now).1).available = e.available := by
  obtain ⟨t, ht⟩ := applySession_shape e s now
  rw [ht]
  exact applyBase_available e s now

lemma applySession_hass (e : Entity) (s : Session) (now : ℚ) :
    ((applySession e s now).1).hass = e.hass := by
  obtain ⟨t, ht⟩ := applySession_shape e s now
  rw [ht]
  exact applyBase_hass e s now

lemma applySession_cn (e : Entity) (s : Session) (now : ℚ) :
    ((applySession e s now).1).channel_number = (cnW s).getD e.channel_number := by
  obtain ⟨t, ht⟩ := applySession_shape e s now
  rw [ht]
  exact applyBase_cn e s now

lemma applySession_epgPair (e : Entity) (s : Session) (now : ℚ) :
    (((applySession e s now).1).epg, ((applySession e s now).1).epg_source)
      = (epgW s).getD (e.epg, e.epg_source) := by
  obtain ⟨t, ht⟩ := applySession_shape e s now
  rw [ht]
  exact applyBase_epgPair e s now

lemma applyFold_nil (e : Entity) (now : ℚ) : applyFold e [] now = e := rfl

lemma applyFold_cons (e : Entity) (s : Session) (L : List Session) (now : ℚ) :
    applyFold e (s :: L) now = applyFold ((applySession e s now).1) L now := rfl

lemma applyFold_append_one (e : Entity) (L : List Session) (s : Session) (now : ℚ) :
    applyFold e (L ++ [s]) now = (applySession (applyFold e L now) s now).1 := by
  unfold applyFold
  rw [List.foldl_append]
  rfl

lemma applyFold_session_id (e : Entity) (L : List Session) (now : ℚ) :
    (applyFold e L now).session_id = e.session_id := by
  induction L generalizing e with
  | nil => rfl
  | cons s L ih =>
    rw [applyFold_cons, ih, applySession_session_id]

lemma applyFold_available (e : Entity) (L : List Session) (now : ℚ) :
    (applyFold e L now).available = e.available := by
  induction L generalizing e with
  | nil => rfl
  | cons s L ih =>
    rw [applyFold_cons, ih, applySession_available]

lemma applyFold_hass (e : Entity) (L : List Session) (now : ℚ) :
    (applyFold e L now).hass = e.hass := by
  induction L generalizing e with
  | nil => rfl
  | cons s L ih =>
    rw [applyFold_cons, ih, applySession_hass]

lemma applyFold_cn (e : Entity) (L : List Session) (now : ℚ) :
    (applyFold e L now).channel_number = writeFold cnW L e.channel_number := by
  induction L generalizing e with
  | nil => rfl
  | cons s L ih =>
    rw [applyFold_cons, ih, applySession_cn]
    rfl

lemma applyFold_epgPair (e : Entity) (L : List Session) (now : ℚ) :
    ((applyFold e L now).epg, (applyFold e L now).epg_source)
      = writeFold epgW L (e.epg, e.epg_source) := by
  induction L generalizing e with
  | nil => rfl
  | cons s L ih =>
    rw [applyFold_cons, ih, applySession_epgPair]
    rfl

lemma writeFold_const_or_id {α : Type} (w : Session → Option α) (L : List Session) :
    (∀ c, writeFold w L c = c) ∨ (∀ c c', writeFold w L c = writeFold w L c') := by
  induction L with
  | nil => exact Or.inl (fun c => rfl)
  | cons s L ih =>
    have hstep : ∀ c, writeFold w (s :: L) c = writeFold w L ((w s).getD c) := fun c => rfl
    cases ih with
    | inl hid =>
      cases hw : w s with
      | none =>
        refine Or.inl (fun c => ?_)
        rw [hstep, hw]
        exact hid c
      | some v =>
        refine Or.inr (fun c c' => ?_)
        rw [hstep, hstep, hw]
        rfl
    | inr hconst =>
      refine Or.inr (fun c c' => ?_)
      rw [hstep, hstep]
      exact hconst _ _

lemma writeFold_idem {α : Type} (w : Session → Option α) (L : List Session) (c : α) :
    writeFold w L (writeFold w L c) = writeFold w L c := by
  cases writeFold_const_or_id w L with
  | inl hid => exact hid _
  | inr hconst => exact hconst _ _

lemma core_applyFold_last (e : Entity) (M : List Session) (s : Session) (now : ℚ) :
    (applyFold e (M ++ [s]) now).core = coreOf s := by
  rw [applyFold_append_one, applySession_core]

/-- Second application of the same session list is observably invisible:
the heart of reconciliation idempotence. -/
lemma obs_applyFold_refold (e : Entity) (M : List Session) (hM : M ≠ []) (n1 n2 : ℚ) :
    Entity.obs (applyFold (applyFold e M n1) M n2) = Entity.obs (applyFold e M n1) := by
  obtain ⟨M', s, hMs⟩ := (List.eq_nil_or_concat M).resolve_left hM
  rw [List.concat_eq_append] at hMs
  subst hMs
  have hsid : (applyFold (applyFold e (M' ++ [s]) n1) (M' ++ [s]) n2).session_id
      = (applyFold e (M' ++ [s]) n1).session_id := by
    rw [applyFold_session_id]
  have hav : (applyFold (applyFold e (M' ++ [s]) n1) (M' ++ [s]) n2).available
      = (applyFold e (M' ++ [s]) n1).available := by
    rw [applyFold_available]
  have hcore : (applyFold (applyFold e (M' ++ [s]) n1) (M' ++ [s]) n2).core
      = (applyFold e (M' ++ [s]) n1).core := by
    rw [core_applyFold_last, core_applyFold_last]
  have hcn : (applyFold (applyFold e (M' ++ [s]) n1) (M' ++ [s]) n2).channel_number
      = (applyFold e (M' ++ [s]) n1).channel_number := by
    rw [applyFold_cn, applyFold_cn, writeFold_idem]
  have hpair : ((applyFold (applyFold e (M' ++ [s]) n1) (M' ++ [s]) n2).epg,
        (applyFold (applyFold e (M' ++ [s]) n1) (M' ++ [s]) n2).epg_source)
      = ((applyFold e (M' ++ [s]) n1).epg, (applyFold e (M' ++ [s]) n1).epg_source) := by
    rw [applyFold_epgPair, applyFold_epgPair, writeFold_idem]
  have hepg := congrArg Prod.fst hpair
  have hsrc := congrArg Prod.snd hpair
  dsimp only at hepg hsrc
  unfold Entity.obs
  rw [hsid, hav, hcore, hcn, hepg, hsrc]

lemma lookupEnt_none_iff (m : List (String × Entity)) (k : String) :
    lookupEnt m k = none ↔ k ∉ keysOf m := by
  induction m with
  | nil => simp [lookupEnt, keysOf]
  | cons p rest ih =>
    unfold lookupEnt
    by_cases h : p.1 = k
    · simp [h, keysOf]
    · simp only [h, if_false, ih, keysOf, List.map_cons, List.mem_cons]
      constructor
      · rintro hk (h1 | h2)
        · exact h h1.symm
        · exact hk h2
      · intro hk
        exact fun h2 => hk (Or.inr h2)

lemma lookupEnt_isSome_iff (m : List (String × Entity)) (k : String) :
    (lookupEnt m k).isSome = true ↔ k ∈ keysOf m := by
  constructor
  · intro hs
    by_contra hk
    rw [(lookupEnt_none_iff m k).mpr hk] at hs
    simp at hs
  · intro hk
    cases hl : lookupEnt m k with
    | none => exact absurd hk ((lookupEnt_none_iff m k).mp hl)
    | some e => rfl

lemma lookupEnt_append_left (m l : List (String × Entity)) (k : String) (e : Entity)
    (h : lookupEnt m k = some e) : lookupEnt (m ++ l) k = some e := by
  induction m with
  | nil => simp [lookupEnt] at h
  | cons p rest ih =>
    rw [List.cons_append]
    unfold lookupEnt at h ⊢
    by_cases hp : p.1 = k
    · simpa [hp] using h
    · simp only [hp, if_false] at h ⊢
      exact ih h

lemma lookupEnt_append_right (m l : List (String × Entity)) (k : String)
    (h : lookupEnt m k = none) : lookupEnt (m ++ l) k = lookupEnt l k := by
  induction m with
  | nil => rfl
  | cons p rest ih =>
    rw [List.cons_append]
    unfold lookupEnt at h
    rw [show lookupEnt (p :: (rest ++ l)) k
      = if p.1 = k then some p.2 else lookupEnt (rest ++ l) k from rfl]
    by_cases hp : p.1 = k
    · simp [hp] at h
    · simp only [hp, if_false] at h ⊢
      exact ih h

lemma lookupEnt_update_self (m : List (String × Entity)) (k : String) (e v : Entity)
    (h : lookupEnt m k = some e) : lookupEnt (updateEnt m k v) k = some v := by
  induction m with
  | nil => simp [lookupEnt] at h
  | cons p rest ih =>
    unfold lookupEnt at h
    unfold updateEnt
    by_cases hp : p.1 = k
    · simp [hp, lookupEnt]
    · simp only [hp, if_false] at h ⊢
      unfold lookupEnt
      simp only [hp, if_false]
      exact ih h

lemma lookupEnt_update_other (m : List (String × Entity)) (k k2 : String) (v : Entity)
    (h : k2 ≠ k) : lookupEnt (updateEnt m k v) k2 = lookupEnt m k2 := by
  induction m with
  | nil => rfl
  | cons p rest ih =>
    obtain ⟨pk, pv⟩ := p
    unfold updateEnt
    dsimp only
    by_cases hp : pk = k
    · subst hp
      rw [if_pos rfl]
      unfold lookupEnt
      dsimp only
      rw [if_neg (fun hh => h hh.symm), if_neg (fun hh => h hh.symm)]
    · rw [if_neg hp]
      unfold lookupEnt
      dsimp only
      by_cases hp2 : pk = k2
      · rw [if_pos hp2, if_pos hp2]
      · rw [if_neg hp2, if_neg hp2]
        exact ih

lemma keysOf_update (m : List (String × Entity)) (k : String) (v : Entity) :
    keysOf (updateEnt m k v) = keysOf m := by
  induction m with
  | nil => rfl
  | cons p rest ih =>
    unfold updateEnt
    by_cases hp : p.1 = k
    · simp [keysOf, hp]
    · simp only [hp, if_false]
      simp [keysOf] at ih ⊢
      exact ih

lemma keysOf_append (m l : List (String × Entity)) :
    keysOf (m ++ l) = keysOf m ++ keysOf l := by
  simp [keysOf]

lemma lookupEnt_mapVals (g : String → Entity → Entity) (m : List (String × Entity))
    (k : String) :
    lookupEnt (mapVals g m) k = (lookupEnt m k).map (g k) := by
  induction m with
  | nil => rfl
  | cons p rest ih =>
    unfold mapVals at ih ⊢
    simp only [List.map_cons]
    unfold lookupEnt
    by_cases hp : p.1 = k
    · subst hp
      simp
    · simp only [hp, if_false]
      exact ih

lemma keysOf_mapVals (g : String → Entity → Entity) (m : List (String × Entity)) :
    keysOf (mapVals g m) = keysOf m := by
  simp [keysOf, mapVals]

lemma matching_cons_hit (s : Session) (L : List Session) (k : String)
    (h : Session.usableId s = some k) : matching (s :: L) k = s :: matching L k := by
  rw [show matching (s :: L) k
    = if Session.usableId s = some k then s :: matching L k else matching L k from rfl,
    if_pos h]

lemma matching_cons_miss (s : Session) (L : List Session) (k : String)
    (h : Session.usableId s ≠ some k) : matching (s :: L) k = matching L k := by
  rw [show matching (s :: L) k
    = if Session.usableId s = some k then s :: matching L k else matching L k from rfl,
    if_neg h]

lemma matching_ne_nil_iff (L : List Session) (k : String) :
    matching L k ≠ [] ↔ ∃ s ∈ L, Session.usableId s = some k := by
  induction L with
  | nil => simp [matching]
  | cons s L ih =>
    by_cases h : Session.usableId s = some k
    · rw [matching_cons_hit s L k h]
      simp only [List.mem_cons]
      constructor
      · intro _
        exact ⟨s, Or.inl rfl, h⟩
      · intro _
        exact List.cons_ne_nil s (matching L k)
    · rw [matching_cons_miss s L k h]
      rw [ih]
      constructor
      · rintro ⟨s2, hs2, hid⟩
        exact ⟨s2, List.mem_cons_of_mem s hs2, hid⟩
      · rintro ⟨s2, hs2, hid⟩
        rcases List.mem_cons.mp hs2 with rfl | hs2
        · exact absurd hid h
        · exact ⟨s2, hs2, hid⟩

lemma syncLoop_nil (now : ℚ) (ents : List (String × Entity)) (seen newIds : List String) :
    syncLoop now [] ents seen newIds = (ents, seen, newIds) := rfl

lemma syncLoop_cons_skip (now : ℚ) (s : Session) (rest : List Session)
    (ents : List (String × Entity)) (seen newIds : List String)
    (h : Session.usableId s = none) :
    syncLoop now (s :: rest) ents seen newIds = syncLoop now rest ents seen newIds := by
  simp only [syncLoop, h]

lemma syncLoop_cons_new (now : ℚ) (s : Session) (rest : List Session)
    (ents : List (String × Entity)) (seen newIds : List String) (sid : String)
    (h : Session.usableId s = some sid) (h2 : lookupEnt ents sid = none) :
    syncLoop now (s :: rest) ents seen newIds
      = syncLoop now rest (ents ++ [(sid, (initEntity s sid now).1)])
          (seen ++ [sid]) (newIds ++ [sid]) := by
  simp only [syncLoop, h, h2]

lemma syncLoop_cons_upd (now : ℚ) (s : Session) (rest : List Session)
    (ents : List (String × Entity)) (seen newIds : List String) (sid : String) (e : Entity)
    (h : Session.usableId s = some sid) (h2 : lookupEnt ents sid = some e) :
    syncLoop now (s :: rest) ents seen newIds
      = syncLoop now rest (updateEnt ents sid (applySession e s now).1)
          (seen ++ [sid]) newIds := by
  simp only [syncLoop, h, h2]

lemma syncLoop_newIds_keys (now : ℚ) (rest : List Session) :
    ∀ ents seen newIds, ∃ δ : List String,
      (syncLoop now rest ents seen newIds).2.2 = newIds ++ δ ∧
      keysOf (syncLoop now rest ents seen newIds).1 = keysOf ents ++ δ ∧
      δ.Nodup ∧
      (∀ k, k ∈ δ ↔ (k ∉ keysOf ents ∧ matching rest k ≠ [])) := by
  induction rest with
  | nil =>
    intro ents seen newIds
    refine ⟨[], by simp [syncLoop_nil], by simp [syncLoop_nil], List.nodup_nil, ?_⟩
    intro k
    simp [matching]
  | cons s rest ih =>
    intro ents seen newIds
    cases hu : Session.usableId s with
    | none =>
      obtain ⟨δ, h1, h2, h3, h4⟩ := ih ents seen newIds
      rw [syncLoop_cons_skip now s rest ents seen newIds hu]
      refine ⟨δ, h1, h2, h3, ?_⟩
      intro k
      rw [h4 k, matching_cons_miss s rest k (by simp [hu])]
    | some sid =>
      cases hl : lookupEnt ents sid with
      | some e =>
        obtain ⟨δ, h1, h2, h3, h4⟩ :=
          ih (updateEnt ents sid (applySession e s now).1) (seen ++ [sid]) newIds
        rw [keysOf_update] at h2 h4
        rw [syncLoop_cons_upd now s rest ents seen newIds sid e hu hl]
        refine ⟨δ, h1, h2, h3, ?_⟩
        intro k
        rw [h4 k]
        by_cases hk : k = sid
        · subst hk
          have hkin : k ∈ keysOf ents :=
            (lookupEnt_isSome_iff ents k).mp (by rw [hl]; rfl)
          constructor
          · rintro ⟨hnk, _⟩
            exact absurd hkin hnk
          · rintro ⟨hnk, _⟩
            exact absurd hkin hnk
        · rw [matching_cons_miss s rest k
            (by rw [hu]; exact fun hh => hk (Option.some.inj hh).symm)]
      | none =>
        obtain ⟨δ, h1, h2, h3, h4⟩ :=
          ih (ents ++ [(sid, (initEntity s sid now).1)]) (seen ++ [sid]) (newIds ++ [sid])
        rw [keysOf_append] at h2 h4
        rw [syncLoop_cons_new now s rest ents seen newIds sid hu hl]
        have hsidδ : sid ∉ δ := by
          intro hmem
          have := (h4 sid).mp hmem
          simp [keysOf] at this
        refine ⟨sid :: δ, ?_, ?_, List.nodup_cons.mpr ⟨hsidδ, h3⟩, ?_⟩
        · rw [h1]
          simp
        · rw [h2]
          simp [keysOf]
        · intro k
          by_cases hk : k = sid
          · subst hk
            have hnk : k ∉ keysOf ents := (lookupEnt_none_iff ents k).mp hl
            have hne : matching (s :: rest) k ≠ [] := by
              rw [matching_cons_hit s rest k hu]
              exact List.cons_ne_nil _ _
            simp [hnk, hne]
          · have hmiss : matching (s :: rest) k = matching rest k :=
              matching_cons_miss s rest k
                (by rw [hu]; exact fun hh => hk (Option.some.inj hh).symm)
            rw [List.mem_cons]
            constructor
            · rintro (rfl | hmem)
              · exact absurd rfl hk
              · have := (h4 k).mp hmem
                rw [hmiss]
                simp only [List.mem_append, List.mem_singleton] at this
                exact ⟨fun hh => this.1 (Or.inl hh), this.2⟩
            · rintro ⟨hnk, hne⟩
              rw [hmiss] at hne
              refine Or.inr ((h4 k).mpr ⟨?_, hne⟩)
              simp only [keysOf, List.map_cons, List.map_nil, List.mem_append,
                List.mem_singleton]
              rintro (hh | hh)
              · exact hnk hh
              · exact hk hh

lemma syncLoop_val_some (now : ℚ) (rest : List Session) :
    ∀ ents seen newIds k e, lookupEnt ents k = some e →
      lookupEnt (syncLoop now rest ents seen newIds).1 k
        = some (applyFold e (matching rest k) now) := by
  induction rest with
  | nil =>
    intro ents seen newIds k e h
    rw [syncLoop_nil]
    simpa [matching, applyFold_nil] using h
  | cons s rest ih =>
    intro ents seen newIds k e h
    cases hu : Session.usableId s with
    | none =>
      rw [syncLoop_cons_skip now s rest ents seen newIds hu,
        matching_cons_miss s rest k (by simp [hu])]
      exact ih ents seen newIds k e h
    | some sid =>
      cases hl : lookupEnt ents sid with
      | some e2 =>
        rw [syncLoop_cons_upd now s rest ents seen newIds sid e2 hu hl]
        by_cases hk : k = sid
        · subst hk
          have he : e2 = e := Option.some.inj (hl.symm.trans h)
          subst he
          rw [matching_cons_hit s rest k hu, applyFold_cons]
          exact ih _ _ _ k ((applySession e2 s now).1)
            (lookupEnt_update_self ents k e2 ((applySession e2 s now).1) hl)
        · rw [matching_cons_miss s rest k
            (by rw [hu]; exact fun hh => hk (Option.some.inj hh).symm)]
          exact ih _ _ _ k e ((lookupEnt_update_other ents sid k _ hk).trans h)
      | none =>
        have hk : k ≠ sid := by
          intro hh
          subst hh
          rw [h] at hl
          exact Option.noConfusion hl
        rw [syncLoop_cons_new now s rest ents seen newIds sid hu hl,
          matching_cons_miss s rest k
            (by rw [hu]; exact fun hh => hk (Option.some.inj hh).symm)]
        exact ih _ _ _ k e (lookupEnt_append_left ents _ k e h)

lemma syncLoop_val_none_nomatch (now : ℚ) (rest : List Session) :
    ∀ ents seen newIds k, lookupEnt ents k = none → matching rest k = [] →
      lookupEnt (syncLoop now rest ents seen newIds).1 k = none := by
  induction rest with
  | nil =>
    intro ents seen newIds k h _
    rw [syncLoop_nil]
    exact h
  | cons s rest ih =>
    intro ents seen newIds k h hm
    cases hu : Session.usableId s with
    | none =>
      rw [matching_cons_miss s rest k (by simp [hu])] at hm
      rw [syncLoop_cons_skip now s rest ents seen newIds hu]
      exact ih ents seen newIds k h hm
    | some sid =>
      have hk : k ≠ sid := by
        intro hh
        subst hh
        rw [matching_cons_hit s rest k hu] at hm
        exact List.cons_ne_nil _ _ hm
      rw [matching_cons_miss s rest k
        (by rw [hu]; exact fun hh => hk (Option.some.inj hh).symm)] at hm
      cases hl : lookupEnt ents sid with
      | some e2 =>
        rw [syncLoop_cons_upd now s rest ents seen newIds sid e2 hu hl]
        exact ih _ _ _ k ((lookupEnt_update_other ents sid k _ hk).trans h) hm
      | none =>
        rw [syncLoop_cons_new now s rest ents seen newIds sid hu hl]
        refine ih _ _ _ k ?_ hm
        rw [lookupEnt_append_right ents _ k h]
        unfold lookupEnt
        rw [if_neg (fun hh => hk hh.symm)]
        rfl

lemma syncLoop_val_create (now : ℚ) (rest : List Session) :
    ∀ ents seen newIds k, lookupEnt ents k = none → matching rest k ≠ [] →
      lookupEnt (syncLoop now rest ents seen newIds).1 k
        = some (applyFold (blankEntity k) (matching rest k) now) := by
  induction rest with
  | nil =>
    intro ents seen newIds k _ hm
    exact absurd rfl hm
  | cons s rest ih =>
    intro ents seen newIds k h hm
    cases hu : Session.usableId s with
    | none =>
      rw [matching_cons_miss s rest k (by simp [hu])] at hm ⊢
      rw [syncLoop_cons_skip now s rest ents seen newIds hu]
      exact ih ents seen newIds k h hm
    | some sid =>
      by_cases hk : k = sid
      · subst hk
        rw [lookupEnt_none_iff] at h
        rw [matching_cons_hit s rest k hu, applyFold_cons]
        rw [syncLoop_cons_new now s rest ents seen newIds k hu
          ((lookupEnt_none_iff ents k).mpr h)]
        refine syncLoop_val_some now rest _ _ _ k ((applySession (blankEntity k) s now).1) ?_
        rw [lookupEnt_append_right ents _ k ((lookupEnt_none_iff ents k).mpr h)]
        unfold lookupEnt
        rw [if_pos rfl]
        rfl
      · rw [matching_cons_miss s rest k
          (by rw [hu]; exact fun hh => hk (Option.some.inj hh).symm)] at hm ⊢
        cases hl : lookupEnt ents sid with
        | some e2 =>
          rw [syncLoop_cons_upd now s rest ents seen newIds sid e2 hu hl]
          exact ih _ _ _ k ((lookupEnt_update_other ents sid k _ hk).trans h) hm
        | none =>
          rw [syncLoop_cons_new now s rest ents seen newIds sid hu hl]
          refine ih _ _ _ k ?_ hm
          rw [lookupEnt_append_right ents _ k h]
          unfold lookupEnt
          rw [if_neg (fun hh => hk hh.symm)]
          rfl

lemma syncLoop_seen (now : ℚ) (rest : List Session) :
    ∀ ents seen newIds k,
      (k ∈ (syncLoop now rest ents seen newIds).2.1 ↔ (k ∈ seen ∨ matching rest k ≠ [])) := by
  induction rest with
  | nil =>
    intro ents seen newIds k
    rw [syncLoop_nil]
    simp [matching]
  | cons s rest ih =>
    intro ents seen newIds k
    cases hu : Session.usableId s with
    | none =>
      rw [syncLoop_cons_skip now s rest ents seen newIds hu,
        matching_cons_miss s rest k (by simp [hu])]
      exact ih ents seen newIds k
    | some sid =>
      have hstep : ∀ (e2 : List (String × Entity)) (n2 : List String),
          (k ∈ (syncLoop now rest e2 (seen ++ [sid]) n2).2.1
            ↔ (k ∈ seen ∨ k = sid ∨ matching rest k ≠ [])) := by
        intro e2 n2
        rw [ih e2 (seen ++ [sid]) n2 k]
        simp only [List.mem_append, List.mem_singleton]
        tauto
      have hgoal : (k ∈ seen ∨ k = sid ∨ matching rest k ≠ [])
          ↔ (k ∈ seen ∨ matching (s :: rest) k ≠ []) := by
        by_cases hk : k = sid
        · subst hk
          rw [matching_cons_hit s rest k hu]
          simp [List.cons_ne_nil]
        · rw [matching_cons_miss s rest k
            (by rw [hu]; exact fun hh => hk (Option.some.inj hh).symm)]
          simp [hk]
      cases hl : lookupEnt ents sid with
      | some e2 =>
        rw [syncLoop_cons_upd now s rest ents seen newIds sid e2 hu hl]
        exact (hstep _ _).trans hgoal
      | none =>
        rw [syncLoop_cons_new now s rest ents seen newIds sid hu hl]
        exact (hstep _ _).trans hgoal

lemma syncEntities_shape (st : SyncState) (L : List Session) (now : ℚ) :
    (syncEntities st L now).2.Nodup ∧
    (∀ k, k ∈ (syncEntities st L now).2
      ↔ (k ∉ keysOf st.entities ∧ matching L k ≠ [])) ∧
    keysOf (syncEntities st L now).1.entities
      = keysOf st.entities ++ (syncEntities st L now).2 ∧
    (syncEntities st L now).1.registered
      = st.registered ++ (syncEntities st L now).2 := by
  obtain ⟨δ, h1, h2, h3, h4⟩ := syncLoop_newIds_keys now L st.entities [] []
  rw [List.nil_append] at h1
  have hout : (syncEntities st L now).2 = δ := by
    unfold syncEntities
    exact h1
  refine ⟨hout ▸ h3, ?_, ?_, ?_⟩
  · intro k
    rw [hout]
    exact h4 k
  · rw [hout]
    show keysOf (mapVals
        (fun k v => if k ∈ (syncLoop now L st.entities [] []).2.2 then setHass v else v)
        (mapVals
          (fun k v => if k ∈ (syncLoop now L st.entities [] []).2.1 then v else markGone v)
          (syncLoop now L st.entities [] []).1)) = keysOf st.entities ++ δ
    rw [keysOf_mapVals, keysOf_mapVals, h2]
  · rw [hout]
    show st.registered ++ (syncLoop now L st.entities [] []).2.2 = st.registered ++ δ
    rw [h1]

lemma syncEntities_lookup (st : SyncState) (L : List Session) (now : ℚ) (k : String) :
    lookupEnt (syncEntities st L now).1.entities k
      = ((lookupEnt (syncLoop now L st.entities [] []).1 k).map
          (fun v => if matching L k ≠ [] then v else markGone v)).map
          (fun v => if k ∉ keysOf st.entities ∧ matching L k ≠ [] then setHass v else v) := by
  obtain ⟨δ, h1, h2, h3, h4⟩ := syncLoop_newIds_keys now L st.entities [] []
  rw [List.nil_append] at h1
  show lookupEnt (mapVals
      (fun k2 v => if k2 ∈ (syncLoop now L st.entities [] []).2.2 then setHass v else v)
      (mapVals
        (fun k2 v => if k2 ∈ (syncLoop now L st.entities [] []).2.1 then v else markGone v)
        (syncLoop now L st.entities [] []).1)) k = _
  rw [lookupEnt_mapVals, lookupEnt_mapVals]
  have hseen : (k ∈ (syncLoop now L st.entities [] []).2.1) = (matching L k ≠ []) := by
    rw [syncLoop_seen now L st.entities [] [] k]
    simp
  have hnew : (k ∈ (syncLoop now L st.entities [] []).2.2)
      = (k ∉ keysOf st.entities ∧ matching L k ≠ []) := by
    rw [h1]
    exact propext (h4 k)
  simp only [hseen, hnew]

lemma syncEntities_val_gone (st : SyncState) (L : List Session) (now : ℚ) (k : String)
    (e : Entity) (h : lookupEnt st.entities k = some e) (hm : matching L k = []) :
    lookupEnt (syncEntities st L now).1.entities k = some (markGone e) := by
  rw [syncEntities_lookup st L now k]
  have hloop : lookupEnt (syncLoop now L st.entities [] []).1 k = some e := by
    have := syncLoop_val_some now L st.entities [] [] k e h
    rwa [hm, applyFold_nil] at this
  rw [hloop]
  simp [hm]

lemma syncEntities_val_upd (st : SyncState) (L : List Session) (now : ℚ) (k : String)
    (e : Entity) (h : lookupEnt st.entities k = some e) (hm : matching L k ≠ []) :
    lookupEnt (syncEntities st L now).1.entities k
      = some (applyFold e (matching L k) now) := by
  rw [syncEntities_lookup st L now k,
    syncLoop_val_some now L st.entities [] [] k e h]
  have hkin : k ∈ keysOf st.entities :=
    (lookupEnt_isSome_iff st.entities k).mp (by rw [h]; rfl)
  simp [hm, hkin]

lemma syncEntities_val_none (st : SyncState) (L : List Session) (now : ℚ) (k : String)
    (h : lookupEnt st.entities k = none) (hm : matching L k = []) :
    lookupEnt (syncEntities st L now).1.entities k = none := by
  rw [syncEntities_lookup st L now k,
    syncLoop_val_none_nomatch now L st.entities [] [] k h hm]
  rfl

lemma syncEntities_val_create (st : SyncState) (L : List Session) (now : ℚ) (k : String)
    (h : lookupEnt st.entities k = none) (hm : matching L k ≠ []) :
    lookupEnt (syncEntities st L now).1.entities k
      = some (setHass (applyFold (blankEntity k) (matching L k) now)) := by
  rw [syncEntities_lookup st L now k,
    syncLoop_val_create now L st.entities [] [] k h hm]
  have hkout : k ∉ keysOf st.entities := (lookupEnt_none_iff st.entities k).mp h
  simp [hm, hkout]

lemma markGone_idem (e : Entity) : markGone (markGone e) = markGone e := rfl

lemma markGone_hass (e : Entity) : (markGone e).hass = e.hass := rfl

lemma obs_setHass (e : Entity) : (setHass e).obs = e.obs := rfl

lemma lookupEnt_mem (m : List (String × Entity)) (k : String) (e : Entity)
    (h : lookupEnt m k = some e) : (k, e) ∈ m := by
  induction m with
  | nil => exact absurd h (by simp [lookupEnt])
  | cons p rest ih =>
    unfold lookupEnt at h
    by_cases hp : p.1 = k
    · rw [if_pos hp] at h
      have hpe : p = (k, e) := by
        obtain ⟨pk, pv⟩ := p
        simp only at hp
        simp only [Option.some.injEq] at h
        rw [hp, h]
      rw [hpe]
      exact List.mem_cons_self _ _
    · rw [if_neg hp] at h
      exact List.mem_cons_of_mem p (ih h)

lemma keysOf_mem_exists (m : List (String × Entity)) (k : String)
    (h : k ∈ keysOf m) : ∃ e, lookupEnt m k = some e := by
  have := (lookupEnt_isSome_iff m k).mpr h
  exact Option.isSome_iff_exists.mp this

lemma usableId_pyOrS (s : Session) (k : String) (h : Session.usableId s = some k) :
    pyOrS s.Id s.SessionId = some k := by
  unfold Session.usableId at h
  by_cases ht : optTruthy (pyOrS s.Id s.SessionId) = true
  · rwa [if_pos ht] at h
  · rw [if_neg ht] at h
    exact Option.noConfusion h

lemma obs_applyFold_setHass (y : Entity) (M : List Session) (n : ℚ) :
    Entity.obs (applyFold (setHass y) M n) = Entity.obs (applyFold y M n) := by
  cases M with
  | nil =>
    rw [applyFold_nil, applyFold_nil]
    exact obs_setHass y
  | cons s0 M0 =>
    obtain ⟨M', s, hMs⟩ := (List.eq_nil_or_concat (s0 :: M0)).resolve_left (List.cons_ne_nil s0 M0)
    rw [List.concat_eq_append] at hMs
    rw [hMs]
    have hsid : (applyFold (setHass y) (M' ++ [s]) n).session_id
        = (applyFold y (M' ++ [s]) n).session_id := by
      rw [applyFold_session_id, applyFold_session_id]
      rfl
    have hav : (applyFold (setHass y) (M' ++ [s]) n).available
        = (applyFold y (M' ++ [s]) n).available := by
      rw [applyFold_available, applyFold_available]
      rfl
    have hcore : (applyFold (setHass y) (M' ++ [s]) n).core
        = (applyFold y (M' ++ [s]) n).core := by
      rw [core_applyFold_last, core_applyFold_last]
    have hcn : (applyFold (setHass y) (M' ++ [s]) n).channel_number
        = (applyFold y (M' ++ [s]) n).channel_number := by
      rw [applyFold_cn, applyFold_cn]
      rfl
    have hpair : ((applyFold (setHass y) (M' ++ [s]) n).epg,
          (applyFold (setHass y) (M' ++ [s]) n).epg_source)
        = ((applyFold y (M' ++ [s]) n).epg, (applyFold y (M' ++ [s]) n).epg_source) := by
      rw [applyFold_epgPair, applyFold_epgPair]
      rfl
    have hepg := congrArg Prod.fst hpair
    have hsrc := congrArg Prod.snd hpair
    dsimp only at hepg hsrc
    unfold Entity.obs
    rw [hsid, hav, hcore, hcn, hepg, hsrc]

lemma findSession_first (e : Entity) (L1 L2 : List Session) (s : Session)
    (hs : pyOrS s.Id s.SessionId = some e.session_id)
    (hL1 : ∀ s2 ∈ L1, pyOrS s2.Id s2.SessionId ≠ some e.session_id) :
    findSession (L1 ++ s :: L2) e.session_id = some s := by
  unfold findSession
  induction L1 with
  | nil =>
    rw [List.nil_append, List.find?]
    rw [show (pyOrS s.Id s.SessionId == some e.session_id) = true by simp [hs]]
  | cons s2 L1 ih =>
    rw [List.cons_append, List.find?]
    rw [show (pyOrS s2.Id s2.SessionId == some e.session_id) = false by
      simp [hL1 s2 (List.mem_cons_self s2 L1)]]
    exact ih (fun s3 hmem => hL1 s3 (List.mem_cons_of_mem s2 hmem))

lemma findSession_none (L : List Session) (k : String)
    (h : ∀ s ∈ L, pyOrS s.Id s.SessionId ≠ some k) :
    findSession L k = none := by
  unfold findSession
  rw [List.find?_eq_none]
  intro s hs
  simp [h s hs]

lemma findSession_isSome (L : List Session) (k : String) (s : Session)
    (hs : s ∈ L) (h : pyOrS s.Id s.SessionId = some k) :
    ∃ s0, findSession L k = some s0 := by
  have : (findSession L k).isSome = true := by
    unfold findSession
    rw [List.find?_isSome]
    exact ⟨s, hs, by simp [h]⟩
  exact Option.isSome_iff_exists.mp this

lemma applySession_state (e : Entity) (s : Session) (now : ℚ) :
    ((applySession e s now).1).state = stateOf s := by
  have h := applySession_core e s now
  calc ((applySession e s now).1).state = ((applySession e s now).1).core.state := rfl
    _ = (coreOf s).state := by rw [h]
    _ = stateOf s := rfl

lemma applySession_content_type (e : Entity) (s : Session) (now : ℚ) :
    ((applySession e s now).1).content_type = contentTypeOf s := by
  have h := applySession_core e s now
  calc ((applySession e s now).1).content_type
      = ((applySession e s now).1).core.content_type := rfl
    _ = (coreOf s).content_type := by rw [h]
    _ = contentTypeOf s := rfl

lemma applySession_media_title (e : Entity) (s : Session) (now : ℚ) :
    ((applySession e s now).1).media_title = s.NowPlayingItem.bind NPItem.Name := by
  have h := applySession_core e s now
  calc ((applySession e s now).1).media_title
      = ((applySession e s now).1).core.media_title := rfl
    _ = (coreOf s).media_title := by rw [h]
    _ = s.NowPlayingItem.bind NPItem.Name := rfl

lemma applyBase_nontv (e : Entity) (s : Session) (now : ℚ)
    (h : contentTypeOf s ≠ some "tvchannel") :
    applyBase e s now = clearLiveTv (applyCommon e s now) := by
  unfold applyBase
  cases s.NowPlayingItem with
  | none => rfl
  | some item =>
    dsimp only
    rw [if_neg h]

lemma applyBase_tv (e : Entity) (s : Session) (now : ℚ) (item : NPItem)
    (hnp : s.NowPlayingItem = some item) (htv : contentTypeOf s = some "tvchannel") :
    applyBase e s now
      = { applyCommon e s now with
          channel_id := channelIdOf s item,
          program_id := progIdChain s item,
          channel_number :=
            if pyOr item.ChannelNumber item.Number ≠ JPrim.null then
              some (JPrim.pyStr (pyOr item.ChannelNumber item.Number))
            else e.channel_number } := by
  unfold applyBase
  rw [hnp]
  dsimp only
  rw [if_pos htv]

lemma applySession_program_id_tv (e : Entity) (s : Session) (now : ℚ) (item : NPItem)
    (hnp : s.NowPlayingItem = some item) (htv : contentTypeOf s = some "tvchannel") :
    ((applySession e s now).1).program_id = progIdChain s item := by
  obtain ⟨t, ht⟩ := applySession_shape e s now
  rw [ht]
  show (applyBase e s now).program_id = progIdChain s item
  rw [applyBase_tv e s now item hnp htv]

lemma optTruthy_pyOrS (a b : Option String) :
    optTruthy (pyOrS a b) = (optTruthy a || optTruthy b) := by
  unfold pyOrS
  by_cases h : optTruthy a = true
  · rw [if_pos h, h]
    rfl
  · rw [if_neg h]
    have : optTruthy a = false := by
      cases ha : optTruthy a
      · rfl
      · exact absurd ha h
    rw [this]
    rfl

/-- The EPG fetch start instants produced by a sequence of triggers
(`_maybe_schedule_epg_refresh` invocations) at the given instants. -/
def epgSpawnTimes (e : Entity) : List ℚ → List ℚ
  | [] => []
  | t :: ts =>
    (if (maybeScheduleEpg e t).2 then [t] else [])
      ++ epgSpawnTimes (maybeScheduleEpg e t).1 ts

lemma epgSpawnTimes_gap (ts : List ℚ) : ∀ e : Entity,
    List.Chain' (fun a b => a + 20 ≤ b) (epgSpawnTimes e ts) ∧
    (∀ v ∈ epgSpawnTimes e ts, ∀ t0, e.last_epg_fetch = some t0 → t0 + 20 ≤ v) := by
  induction ts with
  | nil =>
    intro e
    exact ⟨List.chain'_nil, fun v hv => absurd hv (List.not_mem_nil v)⟩
  | cons t ts ih =>
    intro e
    have hunf : epgSpawnTimes e (t :: ts)
        = (if (maybeScheduleEpg e t).2 then [t] else [])
          ++ epgSpawnTimes (maybeScheduleEpg e t).1 ts := rfl
    cases hl : e.last_epg_fetch with
    | some t0 =>
      by_cases hw : t - t0 < 20
      · have hms : maybeScheduleEpg e t = (e, false) := by
          unfold maybeScheduleEpg
          rw [hl]
          dsimp only
          rw [if_pos hw]
        rw [hunf, hms]
        dsimp only
        rw [if_neg Bool.false_ne_true, List.nil_append]
        obtain ⟨ihc, ihm⟩ := ih e
        exact ⟨ihc, fun v hv t1 h1 => ihm v hv t1 (hl.trans h1)⟩
      · have hms : maybeScheduleEpg e t
            = ({ e with last_epg_fetch := some t }, e.hass) := by
          unfold maybeScheduleEpg
          rw [hl]
          dsimp only
          rw [if_neg hw]
        rw [hunf, hms]
        dsimp only
        obtain ⟨ihc, ihm⟩ := ih { e with last_epg_fetch := some t }
        have hmem20 : ∀ v ∈ epgSpawnTimes { e with last_epg_fetch := some t } ts,
            t + 20 ≤ v := fun v hv => ihm v hv t rfl
        have ht0t : t0 + 20 ≤ t := by
          have := not_lt.mp hw
          linarith
        constructor
        · by_cases hh : e.hass = true
          · rw [if_pos hh, List.singleton_append, List.chain'_cons']
            exact ⟨fun b hb => hmem20 b (List.mem_of_mem_head? hb), ihc⟩
          · rw [if_neg hh, List.nil_append]
            exact ihc
        · intro v hv t1 h1
          have ht1 : t1 = t0 := (Option.some.inj h1).symm
          subst ht1
          have hv2 : v ∈ (if e.hass = true then [t] else [])
              ++ epgSpawnTimes { e with last_epg_fetch := some t } ts := hv
          rcases List.mem_append.mp hv2 with hv3 | hv3
          · by_cases hh : e.hass = true
            · rw [if_pos hh] at hv3
              have : v = t := List.mem_singleton.mp hv3
              subst this
              exact ht0t
            · rw [if_neg hh] at hv3
              exact absurd hv3 (List.not_mem_nil v)
          · have := hmem20 v hv3
            linarith
    | none =>
      have hms : maybeScheduleEpg e t
          = ({ e with last_epg_fetch := some t }, e.hass) := by
        unfold maybeScheduleEpg
        rw [hl]
      rw [hunf, hms]
      dsimp only
      obtain ⟨ihc, ihm⟩ := ih { e with last_epg_fetch := some t }
      have hmem20 : ∀ v ∈ epgSpawnTimes { e with last_epg_fetch := some t } ts,
          t + 20 ≤ v := fun v hv => ihm v hv t rfl
      constructor
      · by_cases hh : e.hass = true
        · rw [if_pos hh, List.singleton_append, List.chain'_cons']
          exact ⟨fun b hb => hmem20 b (List.mem_of_mem_head? hb), ihc⟩
        · rw [if_neg hh, List.nil_append]
          exact ihc
      · intro v hv t1 h1
        exact Option.noConfusion h1

lemma adoptChannelId_pid (e : Entity) (g : Epg) :
    (adoptChannelId e g).program_id = e.program_id := by
  unfold adoptChannelId
  split <;> rfl

lemma adoptChannelId_hass (e : Entity) (g : Epg) :
    (adoptChannelId e g).hass = e.hass := by
  unfold adoptChannelId
  split <;> rfl

lemma adoptChannelNumber_pid (e : Entity) (g : Epg) :
    (adoptChannelNumber e g).program_id = e.program_id := by
  unfold adoptChannelNumber
  split <;> rfl

lemma adoptChannelNumber_hass (e : Entity) (g : Epg) :
    (adoptChannelNumber e g).hass = e.hass := by
  unfold adoptChannelNumber
  split <;> rfl

lemma adoptFromChannel_pid (e : Entity) (chOpt : Option ChannelInfo) :
    (adoptFromChannel e chOpt).program_id = e.program_id := by
  unfold adoptFromChannel
  cases chOpt with
  | none => rfl
  | some ch =>
    dsimp only
    split <;> rfl

lemma adoptFromChannel_hass (e : Entity) (chOpt : Option ChannelInfo) :
    (adoptFromChannel e chOpt).hass = e.hass := by
  unfold adoptFromChannel
  cases chOpt with
  | none => rfl
  | some ch =>
    dsimp only
    split <;> rfl

lemma tagEpgResult_hass (e : Entity) (r : Option Epg) :
    (tagEpgResult e r).hass = e.hass := by
  unfold tagEpgResult
  cases r <;> rfl

lemma refreshEpgBody_ok_shape (c : EpgClient) (e e2 : Entity)
    (h : refreshEpgBody c e = .ok e2) :
    ∃ (e3 : Entity) (r : Option Epg), e2 = tagEpgResult e3 r ∧
      e3.program_id = e.program_id ∧ e3.hass = e.hass := by
  unfold refreshEpgBody at h
  cases hp : c.programForSession e.channel_id e.program_id with
  | error u =>
    rw [hp] at h
    exact Except.noConfusion h
  | ok epg0 =>
    rw [hp] at h
    dsimp only at h
    cases hf : (if epg0.isNone && optTruthy e.channel_id then
        c.currentProgram (e.channel_id.getD "") else Except.ok epg0) with
    | error u =>
      rw [hf] at h
      exact Except.noConfusion h
    | ok epg =>
      rw [hf] at h
      dsimp only at h
      cases epg with
      | none => exact ⟨e, none, (Except.ok.inj h).symm, rfl, rfl⟩
      | some g =>
        dsimp only at h
        by_cases hc : (adoptChannelNumber (adoptChannelId e g) g).channel_number = none
            ∧ optTruthy (adoptChannelNumber (adoptChannelId e g) g).channel_id = true
        · rw [if_pos hc] at h
          cases hch : c.getChannel
              ((adoptChannelNumber (adoptChannelId e g) g).channel_id.getD "") with
          | error u =>
            rw [hch] at h
            exact Except.noConfusion h
          | ok chOpt =>
            rw [hch] at h
            refine ⟨adoptFromChannel (adoptChannelNumber (adoptChannelId e g) g) chOpt,
              some g, (Except.ok.inj h).symm, ?_, ?_⟩
            · rw [adoptFromChannel_pid, adoptChannelNumber_pid, adoptChannelId_pid]
            · rw [adoptFromChannel_hass, adoptChannelNumber_hass, adoptChannelId_hass]
        · rw [if_neg hc] at h
          refine ⟨adoptChannelNumber (adoptChannelId e g) g, some g,
            (Except.ok.inj h).symm, ?_, ?_⟩
          · rw [adoptChannelNumber_pid, adoptChannelId_pid]
          · rw [adoptChannelNumber_hass, adoptChannelId_hass]

lemma refreshEpgBody_error_hass (c : EpgClient) (e ep : Entity)
    (h : refreshEpgBody c e = .error ep) : ep.hass = e.hass := by
  unfold refreshEpgBody at h
  cases hp : c.programForSession e.channel_id e.program_id with
  | error u =>
    rw [hp] at h
    rw [← Except.error.inj h]
  | ok epg0 =>
    rw [hp] at h
    dsimp only at h
    cases hf : (if epg0.isNone && optTruthy e.channel_id then
        c.currentProgram (e.channel_id.getD "") else Except.ok epg0) with
    | error u =>
      rw [hf] at h
      rw [← Except.error.inj h]
    | ok epg =>
      rw [hf] at h
      dsimp only at h
      cases epg with
      | none => exact Except.noConfusion h
      | some g =>
        dsimp only at h
        by_cases hc : (adoptChannelNumber (adoptChannelId e g) g).channel_number = none
            ∧ optTruthy (adoptChannelNumber (adoptChannelId e g) g).channel_id = true
        · rw [if_pos hc] at h
          cases hch : c.getChannel
              ((adoptChannelNumber (adoptChannelId e g) g).channel_id.getD "") with
          | error u =>
            rw [hch] at h
            rw [← Except.error.inj h, adoptChannelNumber_hass, adoptChannelId_hass]
          | ok chOpt =>
            rw [hch] at h
            exact Except.noConfusion h
        · rw [if_neg hc] at h
          exact Except.noConfusion h

/-- C8: `_ticks_to_seconds` divides every numeric ticks value by
10,000,000 (e.g. 300000000 ticks is 30 seconds) and yields `None` — not
0 — for an absent (null) or non-numeric (string) value. -/
theorem c8_ticks_conversion :
    (∀ q : ℚ, ticks_to_seconds (JPrim.jnum q) = some (q / 10000000)) ∧
    ticks_to_seconds (JPrim.jnum 300000000) = some 30 ∧
    ticks_to_seconds JPrim.null = none ∧
    (∀ s : String, ticks_to_seconds (JPrim.jstr s) = none) := by
  refine ⟨fun q => rfl, ?_, rfl, fun s => rfl⟩
  show some ((300000000 : ℚ) / 10000000) = some 30
  norm_num

/-- C3: state derivation tie-break of `_apply_session` — a true
`IsPaused` always yields `paused` regardless of the other signals;
otherwise a true `IsPlaying`, a `PlaybackStatus` of "Playing" or a
present now-playing item yields `playing`; otherwise `idle`. -/
theorem c3_state_tie_break (e : Entity) (s : Session) (now : ℚ) :
    ((s.PlayState.bind PlayState.IsPaused).getD false = true →
      ((applySession e s now).1).state = PState.paused) ∧
    ((s.PlayState.bind PlayState.IsPaused).getD false = false →
      ((s.PlayState.bind PlayState.IsPlaying).getD false = true
        ∨ s.PlayState.bind PlayState.PlaybackStatus = some "Playing"
        ∨ s.NowPlayingItem.isSome = true) →
      ((applySession e s now).1).state = PState.playing) ∧
    ((s.PlayState.bind PlayState.IsPaused).getD false = false →
      (s.PlayState.bind PlayState.IsPlaying).getD false = false →
      s.PlayState.bind PlayState.PlaybackStatus ≠ some "Playing" →
      s.NowPlayingItem.isSome = false →
      ((applySession e s now).1).state = PState.idle) := by
  refine ⟨?_, ?_, ?_⟩
  · intro hp
    rw [applySession_state]
    unfold stateOf
    dsimp only
    rw [hp]
    rfl
  · intro hp hplay
    rw [applySession_state]
    unfold stateOf
    dsimp only
    rw [hp]
    rcases hplay with h | h | h <;> simp [h]
  · intro hp hfl hst hnp
    rw [applySession_state]
    unfold stateOf
    dsimp only
    rw [hp, hfl, hnp]
    simp [hst]

/-- C4: a session whose new snapshot does not classify as `tvchannel`
content has all five live-TV fields cleared to `None` by
`_apply_session` — no stale carry-over across a content-type change. -/
theorem c4_live_tv_clearing (e : Entity) (s : Session) (now : ℚ)
    (h : ((applySession e s now).1).content_type ≠ some "tvchannel") :
    ((applySession e s now).1).channel_id = none ∧
    ((applySession e s now).1).program_id = none ∧
    ((applySession e s now).1).channel_number = none ∧
    ((applySession e s now).1).epg = none ∧
    ((applySession e s now).1).epg_source = none := by
  have hct : contentTypeOf s ≠ some "tvchannel" := by
    rw [← applySession_content_type e s now]
    exact h
  obtain ⟨t, ht⟩ := applySession_shape e s now
  refine ⟨?_, ?_, ?_, ?_, ?_⟩ <;> rw [ht, applyBase_nontv e s now hct] <;> rfl

/-- C10 (implicit): while live-TV content continues on a session, a
now-playing item that carries neither a `ChannelNumber` nor a `Number`
field leaves the cached `channel_number` untouched; `mark_gone` and the
throttle bookkeeping never touch it either — only a non-live snapshot or
an EPG fetch result replaces it. -/
theorem c10_channel_number_carry (e : Entity) (s : Session) (now : ℚ) (item : NPItem)
    (hprev : e.content_type = some "tvchannel")
    (hnp : s.NowPlayingItem = some item)
    (hnew : contentTypeOf s = some "tvchannel")
    (hcn : item.ChannelNumber = JPrim.null) (hnum : item.Number = JPrim.null) :
    ((applySession e s now).1).channel_number = e.channel_number ∧
    (∀ e2 : Entity, (markGone e2).channel_number = e2.channel_number) ∧
    (∀ (e2 : Entity) (t : ℚ),
      ((maybeScheduleEpg e2 t).1).channel_number = e2.channel_number) := by
  refine ⟨?_, fun e2 => rfl, ?_⟩
  · rw [applySession_cn]
    unfold cnW
    rw [hnp]
    dsimp only
    rw [if_pos hnew, hcn, hnum]
    rw [if_neg (by simp [pyOr, JPrim.truthy])]
    rfl
  · intro e2 t
    obtain ⟨t2, ht2⟩ := maybeScheduleEpg_shape e2 t
    rw [ht2]

/-- C6: the per-entity EPG throttle — a trigger strictly inside the
20-second window since the recorded last fetch is dropped without
touching any state; a trigger at or after 20 seconds records the new
instant and (for an attached entity) starts a fetch; along any trigger
sequence, consecutive fetch start instants are at least 20 seconds
apart. -/
theorem c6_epg_throttle :
    (∀ (e : Entity) (now t : ℚ), e.last_epg_fetch = some t → now - t < 20 →
      maybeScheduleEpg e now = (e, false)) ∧
    (∀ (e : Entity) (now t : ℚ), e.hass = true → e.last_epg_fetch = some t →
      20 ≤ now - t →
      (maybeScheduleEpg e now).2 = true
        ∧ (maybeScheduleEpg e now).1.last_epg_fetch = some now) ∧
    (∀ (e : Entity) (ts : List ℚ),
      List.Chain' (fun a b => a + 20 ≤ b) (epgSpawnTimes e ts)) := by
  refine ⟨?_, ?_, fun e ts => (epgSpawnTimes_gap ts e).1⟩
  · intro e now t hl hw
    unfold maybeScheduleEpg
    rw [hl]
    dsimp only
    rw [if_pos hw]
  · intro e now t hh hl hw
    unfold maybeScheduleEpg
    rw [hl]
    dsimp only
    rw [if_neg (not_lt.mpr hw)]
    exact ⟨hh, rfl⟩

def sessTie : Session :=
  { Id := some "t"
    PlayState := some { IsPaused := some true
                        IsPlaying := some true } }

/-- Witness for C3 at the spec's own tie-break example:
`IsPaused=true` and `IsPlaying=true` simultaneously give `paused`. -/
theorem c3_witness :
    ((applySession (blankEntity "t") sessTie 0).1).state = PState.paused :=
  (c3_state_tie_break (blankEntity "t") sessTie 0).1 (by decide)

def sessMovieA : Session :=
  { Id := some "a"
    NowPlayingItem := some { Id := some "x"
                             ItemType := some "Movie"
                             Name := some "Foo"
                             RunTimeTicks := JPrim.jnum 600000000 }
    PlayState := some { IsPaused := some false
                        IsPlaying := some true
                        PositionTicks := JPrim.jnum 300000000 } }

/-- Witness for C4 at a movie session. -/
theorem c4_witness :
    ((applySession (blankEntity "a") sessMovieA 0).1).channel_id = none :=
  (c4_live_tv_clearing (blankEntity "a") sessMovieA 0 (by decide)).1

def entTvX : Entity :=
  { blankEntity "x" with content_type := some "tvchannel", channel_number := some "5" }

def sessTvNoCn : Session :=
  { Id := some "x"
    NowPlayingItem := some { ItemType := some "TvChannel" } }

/-- Witness for C10: a live-TV update without channel-number fields keeps
the cached "5". -/
theorem c10_witness :
    ((applySession entTvX sessTvNoCn 0).1).channel_number = some "5" := by
  have h := (c10_channel_number_carry entTvX sessTvNoCn 0
    { ItemType := some "TvChannel" } rfl rfl (by decide) rfl rfl).1
  rw [h]
  rfl

def entW6 : Entity := { blankEntity "w" with last_epg_fetch := some 10, hass := true }

/-- Witness for C6: a trigger 15 seconds after the last fetch is a
no-op. -/
theorem c6_witness : maybeScheduleEpg entW6 25 = (entW6, false) :=
  (c6_epg_throttle).1 entW6 25 10 rfl (by norm_num)

/-- The four candidate sources for the live-TV program id, in the fixed
order the source consults them. -/
def progSources (s : Session) (item : NPItem) : List (Option String) :=
  [item.ProgramId, s.NowPlayingProgram.bind ProgRef.Id,
   item.CurrentProgram.bind ProgRef.Id, s.NowPlayingProgramId]

/-- C5 (amended): for a `tvchannel` snapshot the derived `program_id` is
the first of the four sources that is present and non-empty (the
source's Python `or` chain skips an empty string, not only a null); when
no source is present and non-empty, the result is the fourth source —
possibly the empty string — when present, else `None`. -/
theorem c5_program_id_priority (e : Entity) (s : Session) (now : ℚ) (item : NPItem)
    (hnp : s.NowPlayingItem = some item) (htv : contentTypeOf s = some "tvchannel") :
    ((applySession e s now).1).program_id
      = match (progSources s item).find? optTruthy with
        | some v => v
        | none => s.NowPlayingProgramId := by
  rw [applySession_program_id_tv e s now item hnp htv]
  unfold progIdChain progSources
  by_cases h1 : optTruthy item.ProgramId = true
  · rw [List.find?_cons_of_pos _ h1]
    simp [pyOrS, optTruthy_pyOrS, h1]
  · rw [List.find?_cons_of_neg _ h1]
    rw [Bool.not_eq_true] at h1
    by_cases h2 : optTruthy (s.NowPlayingProgram.bind ProgRef.Id) = true
    · rw [List.find?_cons_of_pos _ h2]
      simp [pyOrS, optTruthy_pyOrS, h1, h2]
    · rw [List.find?_cons_of_neg _ h2]
      rw [Bool.not_eq_true] at h2
      by_cases h3 : optTruthy (item.CurrentProgram.bind ProgRef.Id) = true
      · rw [List.find?_cons_of_pos _ h3]
        simp [pyOrS, optTruthy_pyOrS, h1, h2, h3]
      · rw [List.find?_cons_of_neg _ h3]
        rw [Bool.not_eq_true] at h3
        by_cases h4 : optTruthy s.NowPlayingProgramId = true
        · rw [List.find?_cons_of_pos _ h4]
          simp [pyOrS, optTruthy_pyOrS, h1, h2, h3, h4]
        · rw [List.find?_cons_of_neg _ h4]
          rw [Bool.not_eq_true] at h4
          simp [pyOrS, optTruthy_pyOrS, h1, h2, h3, h4]

def cexItem5 : NPItem :=
  { Id := some "ch9"
    ItemType := some "TvChannel"
    ProgramId := some "" }

def cexSession5 : Session :=
  { Id := some "s1"
    NowPlayingItem := some cexItem5
    NowPlayingProgram := some { Id := some "P2" } }

/-- Counterexample to C5 as stated: on a `tvchannel` session whose
now-playing item carries the explicit program id `""` (non-null, the
first source of the chain), the derived `program_id` is `"P2"` from the
second source: the chain takes the first *truthy* value, not the first
non-null one. -/
theorem c5_counterexample :
    contentTypeOf cexSession5 = some "tvchannel" ∧
    cexSession5.NowPlayingItem.bind NPItem.ProgramId = some "" ∧
    ((applySession (blankEntity "s1") cexSession5 0).1).program_id = some "P2" ∧
    (some "P2" : Option String) ≠ some "" := by
  refine ⟨by decide, rfl, by decide, by decide⟩

/-- Witness for the amended C5 at the counterexample input. -/
theorem c5_witness :
    ((applySession (blankEntity "s1") cexSession5 0).1).program_id
      = match (progSources cexSession5 cexItem5).find? optTruthy with
        | some v => v
        | none => cexSession5.NowPlayingProgramId :=
  c5_program_id_priority (blankEntity "s1") cexSession5 0 cexItem5 rfl (by decide)

/-- C7 (amended): for every completed EPG refresh, the stored source tag
is `error` exactly when the fetch chain raised (and then the program
snapshot is empty and the exception does not escape — `refreshEpg` is
total); on a fetched program the tag is `program_id` exactly when the
originally requested program id was non-null *and non-empty* and the
returned `Id` equals it (the source's truthiness test also demotes an
empty requested id to `channel_search`), else `channel_search`; `none`
when no program was found; and an attached entity re-publishes state in
every case. -/
theorem c7_epg_tagging (c : EpgClient) (e : Entity) :
    ((refreshEpg c e).1.epg_source = some "error"
      ↔ exceptErr (refreshEpgBody c e) = true) ∧
    (exceptErr (refreshEpgBody c e) = true → (refreshEpg c e).1.epg = none) ∧
    (∀ g : Epg, (refreshEpg c e).1.epg = some g →
      ((refreshEpg c e).1.epg_source = some "program_id"
        ↔ (optTruthy e.program_id = true ∧ g.Id = e.program_id))) ∧
    (∀ g : Epg, (refreshEpg c e).1.epg = some g →
      ¬(optTruthy e.program_id = true ∧ g.Id = e.program_id) →
      (refreshEpg c e).1.epg_source = some "channel_search") ∧
    (exceptErr (refreshEpgBody c e) = false → (refreshEpg c e).1.epg = none →
      (refreshEpg c e).1.epg_source = some "none") ∧
    (e.hass = true → (refreshEpg c e).2 = true) := by
  cases hb : refreshEpgBody c e with
  | error ep =>
    have hr : refreshEpg c e
        = ({ ep with epg := none, epg_source := some "error" }, ep.hass) := by
      unfold refreshEpg
      rw [hb]
    rw [hr]
    dsimp only
    refine ⟨?_, ?_, ?_, ?_, ?_, ?_⟩
    · exact ⟨fun _ => rfl, fun _ => rfl⟩
    · intro _
      rfl
    · intro g hg
      exact absurd hg (by simp)
    · intro g hg hn
      exact absurd hg (by simp)
    · intro hok
      exact absurd hok (by simp [exceptErr])
    · intro hh
      rw [refreshEpgBody_error_hass c e ep hb]
      exact hh
  | ok e2 =>
    obtain ⟨e3, r, he2, hpid, hhass⟩ := refreshEpgBody_ok_shape c e e2 hb
    have hr : refreshEpg c e = (e2, e2.hass) := by
      unfold refreshEpg
      rw [hb]
    rw [hr]
    dsimp only
    subst he2
    cases r with
    | none =>
      refine ⟨?_, ?_, ?_, ?_, ?_, ?_⟩
      · constructor
        · intro hsrc
          exact absurd hsrc (by simp [tagEpgResult])
        · intro habs
          exact absurd habs (by simp [exceptErr])
      · intro habs
        simp [exceptErr] at habs
      · intro g hg
        exact absurd hg (by simp [tagEpgResult])
      · intro g hg hn
        exact absurd hg (by simp [tagEpgResult])
      · intro _ _
        rfl
      · intro hh
        rw [tagEpgResult_hass, hhass]
        exact hh
    | some g0 =>
      have hsrc0 : (tagEpgResult e3 (some g0)).epg_source
          = some (if optTruthy e.program_id && (g0.Id == e.program_id)
                  then "program_id" else "channel_search") := by
        unfold tagEpgResult
        rw [hpid]
      refine ⟨?_, ?_, ?_, ?_, ?_, ?_⟩
      · constructor
        · intro hsrc
          exfalso
          rw [hsrc0] at hsrc
          by_cases hcond : (optTruthy e.program_id && (g0.Id == e.program_id)) = true
          · rw [if_pos hcond] at hsrc
            exact absurd (Option.some.inj hsrc) (by decide)
          · rw [if_neg hcond] at hsrc
            exact absurd (Option.some.inj hsrc) (by decide)
        · intro habs
          simp [exceptErr] at habs
      · intro habs
        simp [exceptErr] at habs
      · intro g hg
        have hgg : g0 = g := Option.some.inj hg
        subst hgg
        rw [hsrc0]
        by_cases hcond : (optTruthy e.program_id && (g0.Id == e.program_id)) = true
        · rw [if_pos hcond]
          rw [Bool.and_eq_true] at hcond
          simp only [Option.some.injEq, beq_iff_eq] at hcond ⊢
          exact iff_of_true trivial ⟨hcond.1, hcond.2⟩
        · rw [if_neg hcond]
          rw [Bool.and_eq_true] at hcond
          constructor
          · intro hsrc
            exact absurd (Option.some.inj hsrc) (by decide)
          · intro ⟨hc1, hc2⟩
            exact absurd ⟨hc1, by rw [beq_iff_eq]; exact hc2⟩ hcond
      · intro g hg hncond
        have hgg : g0 = g := Option.some.inj hg
        subst hgg
        rw [hsrc0]
        rw [if_neg (fun hc => hncond (by
          rw [Bool.and_eq_true] at hc
          exact ⟨hc.1, beq_iff_eq.mp hc.2⟩))]
      · intro _ hg
        exact absurd hg (by simp [tagEpgResult])
      · intro hh
        rw [tagEpgResult_hass, hhass]
        exact hh

def cexEpg7 : Epg :=
  { Id := some ""
    ChannelNumber := JPrim.jstr "7" }

def cexClient7 : EpgClient :=
  { programForSession := fun _ _ => .ok (some cexEpg7)
    currentProgram := fun _ => .ok none
    getChannel := fun _ => .ok none }

def cexEnt7 : Entity :=
  { blankEntity "a" with
    program_id := some ""
    channel_id := some "c1"
    hass := true }

/-- Counterexample to C7 as stated: the refresh requested program id `""`
and the fetch returned a program whose `Id` equals it, yet the stored
source tag is `channel_search`, because the tagging condition also
requires the requested id to be truthy (non-empty). -/
theorem c7_counterexample :
    (refreshEpg cexClient7 cexEnt7).1.epg = some cexEpg7 ∧
    Epg.Id cexEpg7 = Entity.program_id cexEnt7 ∧
    (refreshEpg cexClient7 cexEnt7).1.epg_source = some "channel_search" ∧
    (some "channel_search" : Option String) ≠ some "program_id" := by
  refine ⟨rfl, rfl, rfl, by decide⟩

/-- Witness for the amended C7: an attached entity re-publishes state. -/
theorem c7_witness : (refreshEpg cexClient7 cexEnt7).2 = true :=
  (c7_epg_tagging cexClient7 cexEnt7).2.2.2.2.2 rfl

/-- C9 (amended): within one `_sync_entities` pass the id→entity map
keeps unique keys (exactly one entity per duplicated id), the surviving
entity is the in-order fold of all entries carrying that id, so the last
entry's application determines every wholesale-replaced snapshot field
(here: its core snapshot equals the one obtained by applying the last
entry alone to a fresh entity); the per-entity
`_handle_coordinator_update` path, in contrast, applies the *first*
matching entry of the list — its loop breaks on the first hit — so
last-seen-wins does not hold on that code path. -/
theorem c9_duplicate_handling (st : SyncState) (L : List Session) (now : ℚ)
    (k : String) (M : List Session) (slast : Session)
    (hwf : (keysOf st.entities).Nodup)
    (hm : matching L k = M ++ [slast]) :
    (keysOf (syncEntities st L now).1.entities).Nodup ∧
    (∃ efin, lookupEnt (syncEntities st L now).1.entities k = some efin ∧
      efin.core = ((applySession (blankEntity k) slast now).1).core) ∧
    (∀ (e : Entity) (L1 L2 : List Session) (s : Session) (n2 : ℚ),
      pyOrS s.Id s.SessionId = some e.session_id →
      (∀ s2 ∈ L1, pyOrS s2.Id s2.SessionId ≠ some e.session_id) →
      handleCoordinatorUpdate e (L1 ++ s :: L2) n2
        = { (applySession e s n2).1 with available := true }) := by
  obtain ⟨hnd, hiff, hkeys, hreg⟩ := syncEntities_shape st L now
  have hne : matching L k ≠ [] := by
    rw [hm]
    simp
  refine ⟨?_, ?_, ?_⟩
  · rw [hkeys]
    exact List.Nodup.append hwf hnd (fun a ha hb => ((hiff a).mp hb).1 ha)
  · cases hl : lookupEnt st.entities k with
    | some e0 =>
      refine ⟨applyFold e0 (matching L k) now,
        syncEntities_val_upd st L now k e0 hl hne, ?_⟩
      rw [hm, core_applyFold_last, applySession_core]
    | none =>
      refine ⟨setHass (applyFold (blankEntity k) (matching L k) now),
        syncEntities_val_create st L now k hl hne, ?_⟩
      rw [show (setHass (applyFold (blankEntity k) (matching L k) now)).core
          = (applyFold (blankEntity k) (matching L k) now).core from rfl]
      rw [hm, core_applyFold_last, applySession_core]
  · intro e L1 L2 s n2 hs hL1
    unfold handleCoordinatorUpdate
    rw [findSession_first e L1 L2 s hs hL1]

def sessDup1 : Session :=
  { Id := some "x"
    NowPlayingItem := some { ItemType := some "Movie"
                             Name := some "First" } }

def sessDup2 : Session :=
  { Id := some "x"
    NowPlayingItem := some { ItemType := some "Movie"
                             Name := some "Second" } }

def entX9 : Entity := { blankEntity "x" with hass := true }

/-- Counterexample to C9 as stated: `_handle_coordinator_update` is a
code path that applies the coordinator's session list to an entity, yet
on a list with two entries for the same id it stores the snapshot of the
*first* entry, not the last. -/
theorem c9_counterexample :
    Session.usableId sessDup1 = some "x" ∧
    Session.usableId sessDup2 = some "x" ∧
    (handleCoordinatorUpdate entX9 [sessDup1, sessDup2] 0).media_title = some "First" ∧
    ((applySession entX9 sessDup2 0).1).media_title = some "Second" ∧
    (some "First" : Option String) ≠ some "Second" := by
  refine ⟨by decide, by decide, by decide, by decide, by decide⟩

/-- Witness for the amended C9 on a concrete duplicated list. -/
theorem c9_witness :
    (keysOf (syncEntities { entities := [], registered := [] }
      [sessDup1, sessDup2] 0).1.entities).Nodup :=
  (c9_duplicate_handling { entities := [], registered := [] } [sessDup1, sessDup2] 0
    "x" [sessDup1] sessDup2 (by decide) (by decide)).1

/-- C2: an entity whose session id is absent from the poll's list stays
registered and only flips to `available = false`, with every cached
snapshot field frozen; when the id reappears in a later poll, the same
(still registered, never re-registered) entity becomes available again.
A full coordinator notification is modelled: `_sync_entities` runs, then
each attached entity's `_handle_coordinator_update`. -/
theorem c2_no_silent_deletion (st : SyncState) (L : List Session) (now : ℚ)
    (k : String) (e : Entity)
    (hsid : ∀ p ∈ st.entities, Entity.session_id p.2 = p.1)
    (h : lookupEnt st.entities k = some e) :
    ((∀ s ∈ L, pyOrS s.Id s.SessionId ≠ some k) →
      lookupEnt (coordinatorPoll st L now).1.entities k
          = some { e with available := false } ∧
        k ∉ (coordinatorPoll st L now).2) ∧
    (∀ s ∈ L, Session.usableId s = some k → e.hass = true →
      ∃ efin, lookupEnt (coordinatorPoll st L now).1.entities k = some efin ∧
        efin.available = true ∧ efin.session_id = k ∧
        k ∉ (coordinatorPoll st L now).2) := by
  have hek : e.session_id = k := hsid (k, e) (lookupEnt_mem st.entities k e h)
  have hpoll2 : (coordinatorPoll st L now).2 = (syncEntities st L now).2 := rfl
  have hpoll1 : (coordinatorPoll st L now).1.entities
      = mapVals (fun _ v => if v.hass then handleCoordinatorUpdate v L now else v)
          (syncEntities st L now).1.entities := rfl
  have hkin : k ∈ keysOf st.entities :=
    (lookupEnt_isSome_iff st.entities k).mp (by rw [h]; rfl)
  obtain ⟨hnd, hiff, hkeys, hreg⟩ := syncEntities_shape st L now
  have hnotnew : k ∉ (coordinatorPoll st L now).2 := by
    rw [hpoll2]
    intro hmem
    exact ((hiff k).mp hmem).1 hkin
  constructor
  · intro habs
    have hmL : matching L k = [] := by
      by_contra hne
      obtain ⟨s, hsL, hu⟩ := (matching_ne_nil_iff L k).mp hne
      exact habs s hsL (usableId_pyOrS s k hu)
    have hsync := syncEntities_val_gone st L now k e h hmL
    refine ⟨?_, hnotnew⟩
    rw [hpoll1, lookupEnt_mapVals, hsync]
    show some (if (markGone e).hass = true
        then handleCoordinatorUpdate (markGone e) L now else markGone e)
      = some { e with available := false }
    by_cases hh : e.hass = true
    · rw [if_pos (show (markGone e).hass = true from hh)]
      unfold handleCoordinatorUpdate
      have hmg : findSession L (markGone e).session_id = none := by
        rw [show (markGone e).session_id = k from hek]
        exact findSession_none L k habs
      rw [hmg]
      rfl
    · rw [if_neg (show ¬(markGone e).hass = true from hh)]
      rfl
  · intro s hsL hu hh
    have hne : matching L k ≠ [] := (matching_ne_nil_iff L k).mpr ⟨s, hsL, hu⟩
    have hsync := syncEntities_val_upd st L now k e h hne
    have hfh : (applyFold e (matching L k) now).hass = true := by
      rw [applyFold_hass]
      exact hh
    have hfs : (applyFold e (matching L k) now).session_id = k := by
      rw [applyFold_session_id]
      exact hek
    obtain ⟨s0, hs0⟩ := findSession_isSome L k s hsL (usableId_pyOrS s k hu)
    refine ⟨{ (applySession (applyFold e (matching L k) now) s0 now).1
        with available := true }, ?_, rfl, ?_, hnotnew⟩
    · rw [hpoll1, lookupEnt_mapVals, hsync]
      show some (if (applyFold e (matching L k) now).hass = true
          then handleCoordinatorUpdate (applyFold e (matching L k) now) L now
          else applyFold e (matching L k) now) = _
      rw [if_pos hfh]
      unfold handleCoordinatorUpdate
      have hfind : findSession L (applyFold e (matching L k) now).session_id = some s0 := by
        rw [hfs]
        exact hs0
      rw [hfind]
    · show ((applySession (applyFold e (matching L k) now) s0 now).1).session_id = k
      rw [applySession_session_id]
      exact hfs

/-- C1: reconciliation is idempotent — running `_sync_entities` a second
time on the identical session list registers nothing new (and the
registration log keeps each session id at most once, ever), keeps the
same keys, and leaves every entity's observable state (availability,
name parts and all snapshot fields; the wall-clock capture timestamps
are by definition the instant of the pass) identical to the state after
the first pass. -/
theorem c1_idempotent_reconciliation (st : SyncState) (L : List Session) (now1 now2 : ℚ)
    (hwf : WFs st) :
    (syncEntities (syncEntities st L now1).1 L now2).2 = [] ∧
    (syncEntities (syncEntities st L now1).1 L now2).1.registered
      = (syncEntities st L now1).1.registered ∧
    (syncEntities st L now1).1.registered.Nodup ∧
    keysOf (syncEntities (syncEntities st L now1).1 L now2).1.entities
      = keysOf (syncEntities st L now1).1.entities ∧
    (∀ k, (lookupEnt (syncEntities (syncEntities st L now1).1 L now2).1.entities k).map
        Entity.obs
      = (lookupEnt (syncEntities st L now1).1.entities k).map Entity.obs) := by
  obtain ⟨hwk, hwr, hwrk, hwsid⟩ := hwf
  obtain ⟨hnd1, hiff1, hkeys1, hreg1⟩ := syncEntities_shape st L now1
  obtain ⟨hnd2, hiff2, hkeys2, hreg2⟩ := syncEntities_shape (syncEntities st L now1).1 L now2
  have hmatchkey : ∀ k, matching L k ≠ [] →
      k ∈ keysOf (syncEntities st L now1).1.entities := by
    intro k hne
    rw [hkeys1, List.mem_append]
    by_cases hk : k ∈ keysOf st.entities
    · exact Or.inl hk
    · exact Or.inr ((hiff1 k).mpr ⟨hk, hne⟩)
  have hnil : (syncEntities (syncEntities st L now1).1 L now2).2 = [] := by
    rw [List.eq_nil_iff_forall_not_mem]
    intro k hmem
    obtain ⟨hk, hne⟩ := (hiff2 k).mp hmem
    exact hk (hmatchkey k hne)
  refine ⟨hnil, ?_, ?_, ?_, ?_⟩
  · rw [hreg2, hnil, List.append_nil]
  · rw [hreg1]
    exact List.Nodup.append hwr hnd1
      (fun a ha hb => ((hiff1 a).mp hb).1 (hwrk a ha))
  · rw [hkeys2, hnil, List.append_nil]
  · intro k
    cases hl1 : lookupEnt (syncEntities st L now1).1.entities k with
    | none =>
      have hm : matching L k = [] := by
        by_contra hne
        exact (lookupEnt_none_iff _ k).mp hl1 (hmatchkey k hne)
      rw [syncEntities_val_none (syncEntities st L now1).1 L now2 k hl1 hm]
    | some e1 =>
      by_cases hm : matching L k = []
      · have hk1 : k ∈ keysOf st.entities := by
          have hkin : k ∈ keysOf (syncEntities st L now1).1.entities :=
            (lookupEnt_isSome_iff _ k).mp (by rw [hl1]; rfl)
          rw [hkeys1, List.mem_append] at hkin
          rcases hkin with hk | hk
          · exact hk
          · exact absurd ((hiff1 k).mp hk).2 (by simp [hm])
        obtain ⟨e0, he0⟩ := keysOf_mem_exists st.entities k hk1
        have hv1 := syncEntities_val_gone st L now1 k e0 he0 hm
        have he1 : e1 = markGone e0 := Option.some.inj (hl1.symm.trans hv1)
        have hv2 := syncEntities_val_gone (syncEntities st L now1).1 L now2 k e1 hl1 hm
        rw [hv2, he1, markGone_idem]
      · have hv2 := syncEntities_val_upd (syncEntities st L now1).1 L now2 k e1 hl1 hm
        rw [hv2]
        show some (Entity.obs (applyFold e1 (matching L k) now2)) = some (Entity.obs e1)
        refine congrArg some ?_
        cases hl0 : lookupEnt st.entities k with
        | some e0 =>
          have hv1 := syncEntities_val_upd st L now1 k e0 hl0 hm
          have he1 : e1 = applyFold e0 (matching L k) now1 :=
            Option.some.inj (hl1.symm.trans hv1)
          rw [he1]
          exact obs_applyFold_refold e0 (matching L k) hm now1 now2
        | none =>
          have hv1 := syncEntities_val_create st L now1 k hl0 hm
          have he1 : e1 = setHass (applyFold (blankEntity k) (matching L k) now1) :=
            Option.some.inj (hl1.symm.trans hv1)
          rw [he1]
          calc Entity.obs (applyFold
                (setHass (applyFold (blankEntity k) (matching L k) now1)) (matching L k) now2)
              = Entity.obs (applyFold
                  (applyFold (blankEntity k) (matching L k) now1) (matching L k) now2) :=
                obs_applyFold_setHass _ _ _
            _ = Entity.obs (applyFold (blankEntity k) (matching L k) now1) :=
                obs_applyFold_refold _ _ hm now1 now2
            _ = Entity.obs (setHass (applyFold (blankEntity k) (matching L k) now1)) :=
                (obs_setHass _).symm

def stEmpty : SyncState := { entities := [], registered := [] }

/-- Witness for C1: a second pass on the same one-session list registers
nothing. -/
theorem c1_witness :
    (syncEntities (syncEntities stEmpty [sessMovieA] 0).1 [sessMovieA] 1).2 = [] :=
  (c1_idempotent_reconciliation stEmpty [sessMovieA] 0 1
    ⟨by decide, by decide, by decide, by decide⟩).1

def sessPlainB : Session :=
  { Id := some "b"
    NowPlayingItem := some { ItemType := some "Movie"
                             Name := some "Bar" } }

/-- Witness for C2: the entity created for session "b" survives an empty
poll with only its availability flipped, and no id is re-registered. -/
theorem c2_witness :
    lookupEnt (coordinatorPoll (syncEntities stEmpty [sessPlainB] 0).1 [] 1).1.entities "b"
      = some { (lookupEnt (syncEntities stEmpty [sessPlainB] 0).1.entities "b").getD
          (blankEntity "b") with available := false } ∧
    "b" ∉ (coordinatorPoll (syncEntities stEmpty [sessPlainB] 0).1 [] 1).2 :=
  (c2_no_silent_deletion (syncEntities stEmpty [sessPlainB] 0).1 [] 1 "b"
    ((lookupEnt (syncEntities stEmpty [sessPlainB] 0).1.entities "b").getD (blankEntity "b"))
    (by decide) (by decide)).1 (by simp)
